import Mathlib

/-!
Verification development for a system-information reporting service.

The service consists of ten independent collectors (identity, hardware,
display, network, storage, connected devices, processes, ports,
user/session, time/locale), each returning an ordered list of Markdown
text lines, plus an assembler that concatenates collector outputs into a
full report.  The embedding below translates the collector and assembler
code into Lean: library probes (process/memory/disk introspection,
external commands, HTTP lookup, file reads) become fields of an explicit
environment; the host-language exception discipline is modelled by an
output-accumulating exception monad `PRes`; numeric formatting is
modelled over exact rationals.
-/

namespace SysInfo

/-! ### Character and string helpers

The embedding uses its own structural (kernel-computable) definitions of
the string operations the source relies on: substring containment,
splitting, stripping, lower-casing.  All operate on `String.data`.
-/

/-- Is `c` one of the whitespace characters recognised by string strip/split. -/
def isSpaceCh (c : Char) : Bool :=
  c == ' ' || c == '\t' || c == '\n' || c == '\r' || c == '\x0b' || c == '\x0c'

/-- `chStarts needle hay`: does `hay` start with `needle`. -/
def chStarts : List Char → List Char → Bool
  | [], _ => true
  | _ :: _, [] => false
  | a :: as, b :: bs => a == b && chStarts as bs

/-- `chContainsSub needle hay`: does `needle` occur contiguously in `hay`
(the `in` operator on strings; the empty needle always occurs). -/
def chContainsSub : List Char → List Char → Bool
  | needle, [] => needle.isEmpty
  | needle, c :: cs => chStarts needle (c :: cs) || chContainsSub needle cs

/-- The `in` operator on strings: `pyIn sub s` holds when `sub` occurs in `s`. -/
def pyIn (sub s : String) : Bool := chContainsSub sub.data s.data

/-- `str.startswith` for a single-string argument. -/
def pyStarts (s p : String) : Bool := chStarts p.data s.data

/-- `str.endswith` for a single-string argument. -/
def pyEnds (s p : String) : Bool := chStarts p.data.reverse s.data.reverse

/-- `str.strip()` with no argument: remove leading and trailing whitespace. -/
def pyStrip (s : String) : String :=
  ⟨((s.data.dropWhile isSpaceCh).reverse.dropWhile isSpaceCh).reverse⟩

/-- `str.lower()` restricted to ASCII letters (sufficient for the
source, which lower-cases tool output and process names). -/
def lowerCh (c : Char) : Char :=
  if 65 ≤ c.toNat && c.toNat ≤ 90 then Char.ofNat (c.toNat + 32) else c

/-- `str.lower()`. -/
def pyLower (s : String) : String := ⟨s.data.map lowerCh⟩

/-- Core of `str.split(sep)` for a one-character separator: splitting
the empty string yields one empty group, like the source language. -/
def chSplitOn (sep : Char) : List Char → List (List Char)
  | [] => [[]]
  | c :: cs =>
    if c == sep then [] :: chSplitOn sep cs
    else
      match chSplitOn sep cs with
      | [] => [[c]]
      | g :: gs => (c :: g) :: gs

/-- `str.split(sep)` for a one-character separator string. -/
def pySplitCh (s : String) (sep : Char) : List String :=
  (chSplitOn sep s.data).map (fun g => ⟨g⟩)

/-- Core of whitespace `str.split()`: words are maximal nonspace runs;
no empty groups are produced. -/
def chWordsGo : List Char → List Char → List (List Char)
  | acc, [] => if acc.isEmpty then [] else [acc.reverse]
  | acc, c :: cs =>
    if isSpaceCh c then
      if acc.isEmpty then chWordsGo [] cs else acc.reverse :: chWordsGo [] cs
    else chWordsGo (c :: acc) cs

/-- `str.split()` with no separator: split on whitespace runs, dropping
empty groups. -/
def pySplitWs (s : String) : List String := (chWordsGo [] s.data).map (fun g => ⟨g⟩)

/-- Core of `str.split(sep, maxsplit)`: at most `fuel` splits, the
remainder is kept whole as the final group. -/
def chSplitMax (sep : Char) : Nat → List Char → List (List Char)
  | _, [] => [[]]
  | fuel, c :: cs =>
    if fuel = 0 then [c :: cs]
    else if c == sep then [] :: chSplitMax sep (fuel - 1) cs
    else
      match chSplitMax sep fuel cs with
      | [] => [[c]]
      | g :: gs => (c :: g) :: gs

/-- `str.split(sep, maxsplit)` for a one-character separator. -/
def pySplitChMax (s : String) (sep : Char) (maxsplit : Nat) : List String :=
  (chSplitMax sep maxsplit s.data).map (fun g => ⟨g⟩)

/-- `str.replace(old, new)` for a one-character pattern. -/
def pyReplaceCh (s : String) (pat : Char) (rep : String) : String :=
  ⟨(s.data.map (fun c => if c == pat then rep.data else [c])).flatten⟩

/-- `str.rstrip(chars)`: drop trailing characters belonging to `chs`. -/
def pyRStripChs (s : String) (chs : List Char) : String :=
  ⟨(s.data.reverse.dropWhile (fun c => chs.contains c)).reverse⟩

/-- `str.isdigit()` (ASCII digits; nonempty). -/
def pyIsDigitStr (s : String) : Bool :=
  !s.data.isEmpty && s.data.all Char.isDigit

/-- The idiom `line.split(sep)[-1]`: last group of a one-character split
(total, because the split is never empty). -/
def pySplitLast (s : String) (sep : Char) : String :=
  (pySplitCh s sep).getLastD ""

/-- Numeric value of a list of ASCII digit characters (most significant first). -/
def chNatVal (l : List Char) : Nat :=
  l.foldl (fun a c => 10 * a + (c.toNat - 48)) 0

/-- Does a string parse as a plain decimal floating literal: optional
sign, digits with at most one dot, at least one digit (the source only
feeds refresh-rate strings of this shape to its float check). -/
def chFloatValid (l : List Char) : Bool :=
  let body := match l with
    | '+' :: r => r
    | '-' :: r => r
    | r => r
  match chSplitOn '.' body with
  | [d] => !d.isEmpty && d.all Char.isDigit
  | [d1, d2] => d1.all Char.isDigit && d2.all Char.isDigit && (!d1.isEmpty || !d2.isEmpty)
  | _ => false

/-- `float(s)` validity test after whitespace strip. -/
def pyFloatValid (s : String) : Bool := chFloatValid (pyStrip s).data

/-! ### Exact rational numbers

The source computes percentages and gigabyte conversions in host floats.
The embedding idealises those floats as exact rationals, represented as
unnormalised integer fractions with positive denominator so that every
arithmetic step is kernel-computable.  `PyFloat.toRat` bridges to `ℚ`
for the analytic lemmas.
-/

/-- An exact rational: numerator over positive denominator, unnormalised. -/
structure PyFloat where
  num : Int
  den : Int
  dpos : 0 < den

/-- Embed a `PyFloat` into `ℚ`. -/
def PyFloat.toRat (x : PyFloat) : ℚ := (x.num : ℚ) / (x.den : ℚ)

/-- Integer literal as a `PyFloat`. -/
def PyFloat.ofInt (n : Int) : PyFloat := ⟨n, 1, by omega⟩

/-- Natural literal as a `PyFloat`. -/
def PyFloat.ofNat (n : Nat) : PyFloat := ⟨n, 1, by omega⟩

def PyFloat.add (x y : PyFloat) : PyFloat :=
  ⟨x.num * y.den + y.num * x.den, x.den * y.den, mul_pos x.dpos y.dpos⟩

def PyFloat.sub (x y : PyFloat) : PyFloat :=
  ⟨x.num * y.den - y.num * x.den, x.den * y.den, mul_pos x.dpos y.dpos⟩

def PyFloat.mul (x y : PyFloat) : PyFloat :=
  ⟨x.num * y.num, x.den * y.den, mul_pos x.dpos y.dpos⟩

/-- Exact division; meaningful only for a nonzero divisor (division by
zero raises in the source and is guarded at every call site). -/
def PyFloat.div (x y : PyFloat) : PyFloat :=
  if h : 0 < y.num then ⟨x.num * y.den, x.den * y.num, mul_pos x.dpos h⟩
  else if h2 : y.num < 0 then ⟨-(x.num * y.den), x.den * (-y.num), mul_pos x.dpos (by omega)⟩
  else PyFloat.ofInt 0

/-- Division of two machine integers, as the source performs on byte
counts and percentages. -/
def intDivF (a b : Int) : PyFloat := PyFloat.div (PyFloat.ofInt a) (PyFloat.ofInt b)

def PyFloat.blt (x y : PyFloat) : Bool := decide (x.num * y.den < y.num * x.den)

def PyFloat.ble (x y : PyFloat) : Bool := decide (x.num * y.den ≤ y.num * x.den)

def PyFloat.beqF (x y : PyFloat) : Bool := decide (x.num * y.den = y.num * x.den)

/-- Floor of a `PyFloat` (denominator is positive, so flooring divide). -/
def PyFloat.floor (x : PyFloat) : Int := Int.fdiv x.num x.den

/-- Round half to even, as host-language decimal formatting does, on the
exact rational value. -/
def PyFloat.roundHE (x : PyFloat) : Int :=
  let f := x.floor
  let r := x.num - x.den * f
  if 2 * r = x.den then (if f % 2 = 0 then f else f + 1)
  else Int.fdiv (2 * x.num + x.den) (2 * x.den)

/-- Decimal rendering of a nonnegative integer count of tenths, as `k.d`. -/
def tenthsStr (m : Nat) : String := Nat.repr (m / 10) ++ "." ++ Nat.repr (m % 10)

/-- Format with one decimal digit (the `:.1f` conversion), on the exact
rational idealisation of the float value. -/
def fmt1 (x : PyFloat) : String :=
  let n := PyFloat.roundHE (x.mul (PyFloat.ofNat 10))
  if n < 0 then "-" ++ tenthsStr (n.natAbs) else tenthsStr n.toNat

/-- Format with no decimal digits (the `:.0f` conversion). -/
def fmt0 (x : PyFloat) : String := Int.repr x.roundHE

/-- Render a float value (`str(x)`): the values so rendered by the
source are library percentages already rounded to one decimal, whose
shortest decimal form is exactly the one-decimal rendering. -/
def pyFloatStr (x : PyFloat) : String := fmt1 x

/-- Zero-padded two-digit rendering (the `:02d` conversion) of a natural. -/
def pad2 (n : Nat) : String := if n < 10 then "0" ++ Nat.repr n else Nat.repr n

/-! ### Exceptions and the collector monad

Collector code appends lines to a growing list and may raise; `except`
blocks recover, keeping the lines already appended.  `PRes` carries the
emitted lines together with a normal or exceptional result.
-/

/-- The exception classes distinguished by the source code. -/
inductive ExcKind where
  | calledProcessError
  | timeoutExpired
  | fileNotFoundError
  | permissionError
  | osError
  | accessDenied
  | noSuchProcess
  | zombieProcess
  | zeroDivisionError
  | valueError
  | typeError
  | attributeError
  | keyError
  | generic
deriving DecidableEq, Repr

/-- A raised exception: class plus rendered message (`str(e)`). -/
structure PyExc where
  kind : ExcKind
  msg : String
deriving DecidableEq, Repr

/-- Result of a collector fragment: the text lines it appended, and
either normal completion or a raised exception. -/
structure PRes (α : Type) where
  out : List String
  res : Except PyExc α
deriving Repr

def PRes.pureP (a : α) : PRes α := ⟨[], .ok a⟩

def PRes.bindP (x : PRes α) (f : α → PRes β) : PRes β :=
  match x.res with
  | .error e => ⟨x.out, .error e⟩
  | .ok a => let y := f a; ⟨x.out ++ y.out, y.res⟩

instance : Monad PRes where
  pure := PRes.pureP
  bind := PRes.bindP

/-- Append one line (`info.append`). -/
def emit (s : String) : PRes Unit := ⟨[s], .ok ()⟩

/-- Append many lines (`info.extend`). -/
def emitAll (l : List String) : PRes Unit := ⟨l, .ok ()⟩

/-- Evaluate an expression that may raise but emits nothing. -/
def liftE (x : Except PyExc α) : PRes α := ⟨[], x⟩

/-- `try: body except Exception as e: info.extend(handler e)` — the
lines appended before the raise are kept, the handler lines follow. -/
def pytry (x : PRes Unit) (handler : PyExc → List String) : PRes Unit :=
  match x.res with
  | .ok _ => x
  | .error e => ⟨x.out ++ handler e, .ok ()⟩

/-- Catch only the listed exception classes, producing a replacement value. -/
def pyCatch (x : Except PyExc α) (kinds : List ExcKind) (recover : α) : Except PyExc α :=
  match x with
  | .ok a => .ok a
  | .error e => if kinds.contains e.kind then .ok recover else .error e

/-! ### Ambient operating-system state

Every library probe and external command the collectors consult is a
field of `Env`; a probe that can raise is an `Except` value.  The
collectors are then total functions of the environment.
-/

/-- Outcome of running an external command (`subprocess.check_output`):
the three caught failure classes, plus a permission failure, which the
command helper does not catch. -/
inductive SubprocessOutcome where
  | success (out : String)
  | calledProcessError
  | timeoutExpired
  | fileNotFoundError
  | permissionError
deriving DecidableEq, Repr

/-- Parsed JSON value, as produced by the JSON library (numbers
restricted to integers, which covers the display data consumed). -/
inductive PyJson where
  | null
  | bool (b : Bool)
  | int (n : Int)
  | str (s : String)
  | arr (xs : List PyJson)
  | obj (kvs : List (String × PyJson))
deriving Repr

/-- CPU frequency record (`current`/`max`, MHz). -/
structure CpuFreq where
  current : PyFloat
  max : PyFloat

/-- Virtual-memory counters (byte totals are machine integers,
the percentage a library float). -/
structure VMem where
  total : Int
  available : Int
  percent : PyFloat

/-- Swap counters. -/
structure Swap where
  total : Int
  percent : PyFloat

/-- Battery time-remaining, which the library reports as seconds or one
of two sentinel values. -/
inductive BattSecs where
  | seconds (n : Nat)
  | unlimited
  | unknown
deriving DecidableEq, Repr

/-- Battery state. -/
structure Battery where
  percent : PyFloat
  powerPlugged : Bool
  secsleft : BattSecs

/-- One address of a network interface (`family.name`, address text,
optional netmask). -/
structure IfAddr where
  family : String
  address : String
  netmask : Option String
deriving DecidableEq, Repr

/-- Interface statistics (only the up/down flag is consumed). -/
structure IfStats where
  isup : Bool
deriving DecidableEq, Repr

/-- Outcome of the external-IP HTTP lookup. -/
inductive ExtIPOutcome where
  | timeout
  | connectionFailure
  | response (status : Nat) (body : String)
deriving DecidableEq, Repr

/-- One mounted partition record. -/
structure PartitionRec where
  device : String
  mountpoint : String
  fstype : String
  opts : String
deriving DecidableEq, Repr

/-- Disk usage counters in bytes. -/
structure DiskUsage where
  total : Int
  used : Int
  free : Int
deriving DecidableEq, Repr

/-- Outcome of a per-mountpoint usage probe: the two caught failure
classes or a usage record. -/
inductive DiskUsageOutcome where
  | ok (u : DiskUsage)
  | permissionError
  | osError
deriving DecidableEq, Repr

/-- Locale lookup result (`getdefaultlocale`): language and encoding. -/
structure LocaleInfo where
  lang : Option String
  enc : Option String

/-- Password-database record (only the gecos field is consumed). -/
structure Pwd where
  gecos : String

/-- One process as seen during process iteration. -/
structure ProcEntry where
  pid : Nat
  name : String
  cpu : PyFloat
  mem : PyFloat
  exe : Option String
  cmdline : List String

/-- Process iteration yields a record or raises a per-process access
error, which the scan skips. -/
inductive ProcIterItem where
  | item (p : ProcEntry)
  | denied

/-- A socket address (ip text and port). -/
structure ConnAddr where
  ip : String
  port : Nat
deriving DecidableEq, Repr

/-- Socket states distinguished by the port collector. -/
inductive ConnStatus where
  | listen
  | established
  | other
deriving DecidableEq, Repr

/-- One socket-table entry; `typ` is the socket type tag (1 = stream). -/
structure Conn where
  status : ConnStatus
  laddr : Option ConnAddr
  raddr : Option ConnAddr
  pid : Option Nat
  typ : Nat
deriving DecidableEq, Repr

/-- Result of asking a process for its executable path: a path (possibly
empty), or a permission failure. -/
inductive ExeLookup where
  | path (s : String)
  | denied
deriving DecidableEq, Repr

/-- Result of resolving a pid to a process: name plus executable lookup,
or the process is gone, or access is denied.  These are the failure
classes the process API is specified to raise. -/
inductive PidLookup where
  | found (name : String) (exe : ExeLookup)
  | missing
  | denied
deriving DecidableEq, Repr

/-- The ambient OS state consulted by the collectors. -/
structure Env where
  /-- `platform.system()` -/
  platformSystem : String
  /-- `platform.node()` -/
  node : String
  /-- `platform.release()` -/
  release : String
  /-- `platform.machine()` -/
  machine : String
  /-- `platform.processor()` -/
  processor : String
  /-- `subprocess.check_output(cmd, timeout=t)` outcome per command and timeout -/
  cmd : List String → Nat → SubprocessOutcome
  /-- `json.loads` on a command output -/
  jsonLoads : String → Except PyExc PyJson
  /-- `psutil.cpu_count(logical=False)` -/
  cpuCountPhysical : Except PyExc (Option Nat)
  /-- `psutil.cpu_count(logical=True)` -/
  cpuCountLogical : Except PyExc (Option Nat)
  /-- `psutil.cpu_freq()` -/
  cpuFreq : Except PyExc (Option CpuFreq)
  /-- `psutil.cpu_percent(interval=1)` -/
  cpuPercent : Except PyExc PyFloat
  /-- `psutil.virtual_memory()` -/
  virtualMemory : Except PyExc VMem
  /-- `psutil.swap_memory()` -/
  swapMemory : Except PyExc Swap
  /-- `psutil.sensors_battery()` -/
  sensorsBattery : Except PyExc (Option Battery)
  /-- read of the battery power-draw sysfs file -/
  powerNowFile : Except PyExc String
  /-- read of the battery capacity sysfs file -/
  capacityFile : Except PyExc String
  /-- read of the battery design-charge sysfs file -/
  chargeFullDesignFile : Except PyExc String
  /-- read of the battery full-charge sysfs file -/
  chargeFullFile : Except PyExc String
  /-- `psutil.boot_time()` (epoch seconds) -/
  bootTime : Except PyExc Int
  /-- `datetime.now()` as epoch seconds -/
  nowTs : Int
  /-- calendar rendering of an epoch timestamp (`strftime` with the
  fixed format the source uses) -/
  fmtTimestamp : Int → String
  /-- `psutil.net_if_addrs()` (insertion-ordered) -/
  netIfAddrs : Except PyExc (List (String × List IfAddr))
  /-- `psutil.net_if_stats()` -/
  netIfStats : Except PyExc (List (String × IfStats))
  /-- read of the resolver configuration file -/
  resolvConf : Except PyExc String
  /-- outcome of the external-IP HTTP request -/
  extIP : ExtIPOutcome
  /-- `psutil.disk_partitions()` -/
  diskPartitions : Except PyExc (List PartitionRec)
  /-- `psutil.disk_usage(mountpoint)` -/
  diskUsage : String → DiskUsageOutcome
  /-- `getpass.getuser()` -/
  getuser : Except PyExc String
  /-- `pwd.getpwnam(username)` -/
  pwnam : String → Except PyExc Pwd
  /-- creation time of the current process (epoch seconds) -/
  procCreateTime : Except PyExc Int
  /-- `time.tzname` -/
  tzname0 : String
  tzname1 : String
  /-- `time.daylight` -/
  daylight : Int
  /-- `time.timezone` (seconds west of UTC) -/
  timezoneSecs : Int
  /-- `time.altzone` -/
  altzoneSecs : Int
  /-- `locale.getdefaultlocale()` -/
  defaultLocale : Except PyExc LocaleInfo
  /-- `psutil.process_iter(...)` -/
  processIter : Except PyExc (List ProcIterItem)
  /-- `psutil.net_connections(kind=inet)` -/
  netConnections : Except PyExc (List Conn)
  /-- `psutil.net_connections(kind=inet, pid=None)` -/
  netConnectionsNoPid : Except PyExc (List Conn)
  /-- `psutil.Process().connections(kind=inet)` -/
  procConnectionsSelf : Except PyExc (List Conn)
  /-- resolving a pid to its process -/
  pidInfo : Nat → PidLookup

/-! ### External-command helper -/

/-- Semantics of `subprocess.check_output`: text on success, otherwise a
raised exception of the corresponding class. -/
def checkOutput : SubprocessOutcome → Except PyExc String
  | .success out => .ok out
  | .calledProcessError => .error ⟨.calledProcessError, "called process error"⟩
  | .timeoutExpired => .error ⟨.timeoutExpired, "timeout expired"⟩
  | .fileNotFoundError => .error ⟨.fileNotFoundError, "file not found"⟩
  | .permissionError => .error ⟨.permissionError, "permission denied"⟩

/-- `safe_subprocess`: run an external command, catching process errors,
timeouts, and missing binaries, in which case the empty string is
returned.  Other failures (a permission error) propagate. -/
def safe_subprocess (env : Env) (cmd : List String) (timeout : Nat) : Except PyExc String :=
  pyCatch (checkOutput (env.cmd cmd timeout))
    [ExcKind.calledProcessError, ExcKind.timeoutExpired, ExcKind.fileNotFoundError] ""

/-! ### Identity collector -/

/-- Scan hardware-profiler output for the first line mentioning the
serial number and render it; the scan stops at the first match. -/
def serialScan : List String → List String
  | [] => []
  | line :: rest =>
    if pyIn "Serial Number" line then
      ["- **Serial Number**: " ++ pyStrip (pySplitLast line ':')]
    else serialScan rest

/-- `get_system_identity`. -/
def get_system_identity (env : Env) : PRes Unit := do
  emit "## 🖥️ System Identity"
  emit ("- **Hostname**: " ++ env.node)
  emit ("- **Platform**: " ++ env.platformSystem ++ " " ++ env.release)
  emit ("- **Architecture**: " ++ env.machine)
  emit ("- **Processor**: " ++ env.processor)
  if env.platformSystem = "Darwin" then
    let serialOutput ← liftE (safe_subprocess env ["system_profiler", "SPHardwareDataType"] 5)
    emitAll (serialScan (pySplitCh serialOutput '\n'))

/-! ### Hardware collector -/

/-- Render an optional probe value, `None` when absent. -/
def optNatStr : Option Nat → String
  | some n => Nat.repr n
  | none => "None"

/-- Bytes per gigabyte, base 1024. -/
def gib : Int := 1024 ^ 3

/-- One line of Darwin graphics-profiler output, rendered if it carries
a chipset model or VRAM figure. -/
def gpuDarwinLine (raw : String) : Option String :=
  let line := pyStrip raw
  if pyIn "Chipset Model:" line then
    some ("- **GPU**: " ++ pyStrip (pySplitLast line ':'))
  else if pyIn "VRAM" line then
    some ("  - **VRAM**: " ++ pyStrip (pySplitLast line ':'))
  else none

/-- The Darwin GPU listing from nonmissing profiler output: one entry
per chipset line, with no cap on their number. -/
def gpuDarwinEntries (out : String) : List String :=
  if out ≠ "" then
    "\n### Graphics Cards" :: (pySplitCh out '\n').filterMap gpuDarwinLine
  else []

/-- The Linux GPU listing: display devices from the bus enumeration,
capped at the first three. -/
def gpuLinuxEntries (out : String) : List String :=
  if out ≠ "" then
    let gpus := (pySplitCh out '\n').filter (fun l => pyIn "VGA" l || pyIn "3D" l)
    if gpus ≠ [] then
      "\n### Graphics Cards" :: (gpus.take 3).filterMap (fun g =>
        let parts := pySplitCh g '"'
        if 6 ≤ parts.length then some ("- **GPU**: " ++ parts.getD 5 "") else none)
    else []
  else []

/-- `_get_gpu_info`: platform-specific GPU enumeration; every failure is
caught and yields no lines. -/
def gpuInfo (env : Env) : List String :=
  if env.platformSystem = "Darwin" then
    match safe_subprocess env ["system_profiler", "SPDisplaysDataType"] 5 with
    | .error _ => []
    | .ok out => gpuDarwinEntries out
  else if env.platformSystem = "Linux" then
    match safe_subprocess env ["lspci", "-mm"] 5 with
    | .error _ => []
    | .ok out => gpuLinuxEntries out
  else []

/-- One line of Darwin power-profiler output, rendered if it carries a
recognised battery detail. -/
def macBatteryLine (raw : String) : Option String :=
  let line := pyStrip raw
  if pyIn "Wattage (W):" line then
    some ("- **Charging Wattage**: " ++ pyStrip (pySplitLast line ':') ++ "W")
  else if pyIn "Cycle Count:" line then
    some ("- **Cycle Count**: " ++ pyStrip (pySplitLast line ':'))
  else if pyIn "Condition:" line then
    some ("- **Condition**: " ++ pyStrip (pySplitLast line ':'))
  else if pyIn "Maximum Capacity:" line then
    some ("- **Max Capacity**: " ++ pyStrip (pySplitLast line ':'))
  else none

/-- `int(s)`: strip, optional sign, at least one digit; otherwise a
value error is raised. -/
def pyIntParse (s : String) : Except PyExc Int :=
  let t := (pyStrip s).data
  let core := match t with
    | '+' :: r => (1, r)
    | '-' :: r => (-1, r)
    | r => ((1 : Int), r)
  if !core.2.isEmpty && core.2.all Char.isDigit then
    .ok (core.1 * (chNatVal core.2 : Int))
  else .error ⟨.valueError, "invalid literal for int"⟩

/-- Darwin-specific battery details (guarded; failures yield no lines). -/
def macBatteryDetails (env : Env) : List String :=
  match safe_subprocess env ["system_profiler", "SPPowerDataType"] 5 with
  | .error _ => []
  | .ok out =>
    if out ≠ "" then (pySplitCh out '\n').filterMap macBatteryLine else []

/-- Linux-specific battery power draw from sysfs (guarded). -/
def linuxPowerDraw (env : Env) : List String :=
  match env.powerNowFile with
  | .error _ => []
  | .ok s =>
    match pyIntParse (pyStrip s) with
    | .error _ => []
    | .ok n => ["- **Power Draw**: " ++ fmt1 (intDivF n 1000000) ++ "W"]

/-- Linux-specific battery health from sysfs (guarded; a zero design
charge raises a division error, which the guard also swallows). -/
def linuxBatteryHealth (env : Env) : List String :=
  match env.capacityFile, env.chargeFullDesignFile, env.chargeFullFile with
  | .ok _, .ok designS, .ok currentS =>
    match pyIntParse designS, pyIntParse currentS with
    | .ok d, .ok c =>
      if d = 0 then []
      else ["- **Battery Health**: " ++ fmt1 ((intDivF c d).mul (PyFloat.ofNat 100)) ++ "%"]
    | _, _ => []
  | _, _, _ => []

/-- `_get_battery_info`: battery charge, status, time remaining, and
platform extras; a missing battery or any probe failure yields no lines. -/
def batteryLines (env : Env) : List String :=
  match env.sensorsBattery with
  | .error _ => []
  | .ok none => []
  | .ok (some b) =>
    ["\n### Battery", "- **Charge Level**: " ++ fmt1 b.percent ++ "%"]
    ++ [if b.powerPlugged then "- **Status**: Charging (plugged in)" else "- **Status**: On battery"]
    ++ (match b.secsleft with
        | .seconds n =>
          let hours := n / 3600
          let minutes := (n % 3600) / 60
          if b.powerPlugged then
            ["- **Time to Full**: " ++ Nat.repr hours ++ "h " ++ Nat.repr minutes ++ "m"]
          else
            ["- **Time Remaining**: " ++ Nat.repr hours ++ "h " ++ Nat.repr minutes ++ "m"]
        | _ => [])
    ++ (if env.platformSystem = "Darwin" then macBatteryDetails env
        else if env.platformSystem = "Linux" then linuxPowerDraw env ++ linuxBatteryHealth env
        else [])

/-- `get_hardware_info`: CPU, memory, swap, GPU, battery, boot/uptime.
The direct library reads are unguarded, so their failures propagate. -/
def get_hardware_info (env : Env) : PRes Unit := do
  emit "\n## 🔧 Hardware"
  let cpu_count ← liftE env.cpuCountPhysical
  let cpu_logical ← liftE env.cpuCountLogical
  let cpu_freq ← liftE env.cpuFreq
  let cpu_percent ← liftE env.cpuPercent
  emit ("- **CPU Cores**: " ++ optNatStr cpu_count ++ " physical, " ++ optNatStr cpu_logical ++ " logical")
  match cpu_freq with
  | some f =>
    emit ("- **CPU Frequency**: " ++ fmt0 f.current ++ " MHz (max: " ++ fmt0 f.max ++ " MHz)")
  | none => pure ()
  emit ("- **CPU Usage**: " ++ pyFloatStr cpu_percent ++ "%")
  let memory ← liftE env.virtualMemory
  let swap ← liftE env.swapMemory
  emit ("- **Total RAM**: " ++ fmt1 (intDivF memory.total gib) ++ " GB")
  emit ("- **Available RAM**: " ++ fmt1 (intDivF memory.available gib) ++ " GB ("
        ++ pyFloatStr memory.percent ++ "% used)")
  if 0 < swap.total then
    emit ("- **Swap**: " ++ fmt1 (intDivF swap.total gib) ++ " GB ("
          ++ pyFloatStr swap.percent ++ "% used)")
  emitAll (gpuInfo env)
  emitAll (batteryLines env)
  let boot ← liftE env.bootTime
  let delta := env.nowTs - boot
  emit ("\n- **Boot Time**: " ++ env.fmtTimestamp boot)
  emit ("- **Uptime**: " ++ Int.repr (Int.fdiv delta 86400) ++ " days, "
        ++ Int.repr (Int.fdiv (Int.emod delta 86400) 3600) ++ " hours")

/-! ### Display collector

JSON values from the system profiler are navigated with the dynamic
semantics of the host language: `.get` on a non-mapping raises an
attribute error, iteration of a non-sequence raises a type error,
`in` on a string is substring search, and so on; any such raise inside
the JSON path sends the collector to its text-parsing fallback.
-/

mutual

/-- Rendering of a JSON value (`str(value)`). -/
def pyJsonStr : PyJson → String
  | .null => "None"
  | .bool true => "True"
  | .bool false => "False"
  | .int n => Int.repr n
  | .str s => s
  | .arr xs => "[" ++ pyJsonStrList xs ++ "]"
  | .obj kvs => "\x7b" ++ pyJsonStrObj kvs ++ "\x7d"

/-- Comma-joined rendering of a JSON sequence. -/
def pyJsonStrList : List PyJson → String
  | [] => ""
  | [x] => pyJsonStr x
  | x :: y :: rest => pyJsonStr x ++ ", " ++ pyJsonStrList (y :: rest)

/-- Comma-joined rendering of JSON mapping entries. -/
def pyJsonStrObj : List (String × PyJson) → String
  | [] => ""
  | [(k, v)] => k ++ ": " ++ pyJsonStr v
  | (k, v) :: y :: rest => k ++ ": " ++ pyJsonStr v ++ ", " ++ pyJsonStrObj (y :: rest)

end

/-- Iterate a JSON value: sequences yield elements, strings yield their
characters, mappings yield their keys, anything else raises. -/
def jsonIter : PyJson → Except PyExc (List PyJson)
  | .arr xs => .ok xs
  | .str s => .ok (s.data.map (fun c => .str ⟨[c]⟩))
  | .obj kvs => .ok (kvs.map (fun kv => .str kv.1))
  | _ => .error ⟨.typeError, "object is not iterable"⟩

/-- The `in` operator against a JSON value: key membership for
mappings, substring for strings, element equality for sequences. -/
def jsonHasKey (v : PyJson) (k : String) : Except PyExc Bool :=
  match v with
  | .obj kvs => .ok (kvs.any (fun kv => kv.1 = k))
  | .str s => .ok (pyIn k s)
  | .arr xs => .ok (xs.any (fun x => match x with | .str t => t = k | _ => false))
  | _ => .error ⟨.typeError, "argument is not iterable"⟩

/-- Subscripting a JSON value with a string key. -/
def jsonGetItem (v : PyJson) (k : String) : Except PyExc PyJson :=
  match v with
  | .obj kvs =>
    match kvs.find? (fun kv => kv.1 = k) with
    | some kv => .ok kv.2
    | none => .error ⟨.keyError, k⟩
  | _ => .error ⟨.typeError, "indices must be integers"⟩

/-- `.get(key, default)` on a JSON value; absent on non-mappings. -/
def dictGet (v : PyJson) (k : String) (dflt : PyJson) : Except PyExc PyJson :=
  match v with
  | .obj kvs =>
    match kvs.find? (fun kv => kv.1 = k) with
    | some kv => .ok kv.2
    | none => .ok dflt
  | _ => .error ⟨.attributeError, "object has no attribute get"⟩

/-- Assignment into an insertion-ordered string dictionary. -/
def dictAssign (d : List (String × String)) (k v : String) : List (String × String) :=
  if d.any (fun kv => kv.1 = k) then d.map (fun kv => if kv.1 = k then (k, v) else kv)
  else d ++ [(k, v)]

/-- Render one display record from parsed JSON: each recognised key
contributes a field, and an HDR flag is always appended. -/
def displayDictEntries (d : PyJson) : Except PyExc (List (String × String)) := do
  let optField (key label : String) (suffixText : String) : Except PyExc (List (String × String)) := do
    let h ← jsonHasKey d key
    if h then
      let v ← jsonGetItem d key
      pure [(label, pyJsonStr v ++ suffixText)]
    else pure []
  let e1 ← optField "_name" "Name" ""
  let e2 ← optField "_spdisplays_resolution" "Resolution" ""
  let e3 ← optField "_spdisplays_refresh_rate" "Refresh Rate" " Hz"
  let e4 ← optField "_spdisplays_depth" "Color Depth" ""
  let e5 ← optField "_spdisplays_connection_type" "Connection" ""
  let h1 ← jsonHasKey d "_spdisplays_hdr"
  let h2 ← jsonHasKey d "_spdisplays_hdr10"
  let h3 ← jsonHasKey d "_spdisplays_dolby_vision"
  let hdr := [("HDR Support", if h1 || h2 || h3 then "Yes" else "Unknown")]
  return e1 ++ e2 ++ e3 ++ e4 ++ e5 ++ hdr

/-- Inner loop of the JSON path: one record per display, keeping the
records completed before a raise and reporting the raise. -/
def macosJsonDisplayLoop : List (List (String × String)) → List PyJson →
    List (List (String × String)) × Option PyExc
  | acc, [] => (acc, none)
  | acc, d :: rest =>
    match displayDictEntries d with
    | .error e => (acc, some e)
    | .ok di => macosJsonDisplayLoop (acc ++ [di]) rest

/-- Outer loop of the JSON path over the GPU records. -/
def macosJsonGpuLoop : List (List (String × String)) → List PyJson →
    List (List (String × String)) × Option PyExc
  | acc, [] => (acc, none)
  | acc, gpu :: rest =>
    match (do
        let nd ← dictGet gpu "spdisplays_ndrvs" (PyJson.arr [])
        jsonIter nd : Except PyExc (List PyJson)) with
    | .error e => (acc, some e)
    | .ok ds =>
      match macosJsonDisplayLoop acc ds with
      | (acc2, some e) => (acc2, some e)
      | (acc2, none) => macosJsonGpuLoop acc2 rest

/-- The JSON path of `_get_macos_displays`: the display records
completed before a raise are kept in the list, and the raise is
reported so the caller runs its text fallback.  An empty command output
returns no displays and no raise. -/
def macosDisplaysJsonP (env : Env) : List (List (String × String)) × Option PyExc :=
  match safe_subprocess env ["system_profiler", "SPDisplaysDataType", "-json"] 10 with
  | .error e => ([], some e)
  | .ok output =>
    if output = "" then ([], none)
    else
      match (do
          let data ← env.jsonLoads output
          let top ← dictGet data "SPDisplaysDataType" (PyJson.arr [])
          jsonIter top : Except PyExc (List PyJson)) with
      | .error e => ([], some e)
      | .ok gpus => macosJsonGpuLoop [] gpus

/-- Text fallback of `_get_macos_displays`: keyword scan of the plain
profiler output (later matches overwrite earlier ones). -/
def macosDisplaysFallback (env : Env) : Except PyExc (List (List (String × String))) := do
  let output ← safe_subprocess env ["system_profiler", "SPDisplaysDataType"] 5
  if output ≠ "" then
    let d := (pySplitCh output '\n').foldl (fun acc raw =>
      let line := pyStrip raw
      if pyIn "Resolution:" line then dictAssign acc "Resolution" (pyStrip (pySplitLast line ':'))
      else if pyIn "Refresh Rate:" line then dictAssign acc "Refresh Rate" (pyStrip (pySplitLast line ':'))
      else if pyIn "Connection Type:" line then dictAssign acc "Connection" (pyStrip (pySplitLast line ':'))
      else acc) []
    if d ≠ [] then return [d] else return []
  else return []

/-- `_get_macos_displays`: on a raise inside the JSON path the records
already in the list stay there and the fallback record, if any, is
appended to them. -/
def macosDisplays (env : Env) : Except PyExc (List (List (String × String))) :=
  match macosDisplaysJsonP env with
  | (ds, none) => .ok ds
  | (ds, some _) =>
    match macosDisplaysFallback env with
    | .error e => .error e
    | .ok fs => .ok (ds ++ fs)

/-- Scan connection-line words for a resolution-shaped token. -/
def xrandrRes : List String → Option String
  | [] => none
  | p :: rest =>
    if pyIn "x" p &&
       pyIsDigitStr (pyReplaceCh (pyReplaceCh (pyReplaceCh p 'x' "") '+' "") '-' "") then
      some ((pySplitCh p '+').headD "")
    else xrandrRes rest

/-- One step of the xrandr parse: state is accumulated displays plus the
record under construction. -/
def xrandrLineStep (st : List (List (String × String)) × List (String × String))
    (raw : String) : List (List (String × String)) × List (String × String) :=
  let displays := st.1
  let current := st.2
  let line := pyStrip raw
  if pyIn " connected" line && !(pyStarts line " ") then
    let displays := if current ≠ [] then displays ++ [current] else displays
    let parts := pySplitWs line
    if parts ≠ [] then
      let c0 := dictAssign (dictAssign [] "Name" (parts.headD "")) "Status" "Connected"
      let c1 := match xrandrRes parts with
        | some r => dictAssign c0 "Resolution" r
        | none => c0
      (displays, c1)
    else (displays, [])
  else if line ≠ "" && current ≠ [] && (pyIn "*" line || pyIn "+" line) then
    let parts := pySplitWs line
    if parts ≠ [] && pyIn "x" (parts.headD "") then
      if pyIn "*" line then
        let c0 := dictAssign current "Current Resolution" (parts.headD "")
        let c1 := (parts.drop 1).foldl (fun c part =>
          if pyEnds part "*" || pyEnds part "+" then
            let rate := pyRStripChs part ['*', '+']
            if pyFloatValid rate then dictAssign c "Refresh Rate" (rate ++ " Hz") else c
          else c) c0
        (displays, c1)
      else (displays, current)
    else (displays, current)
  else if pyIn "Brightness:" line then
    (displays, dictAssign current "Brightness" (pyStrip (pySplitLast line ':')))
  else if pyIn "Colorspace:" line then
    (displays, dictAssign current "Colorspace" (pyStrip (pySplitLast line ':')))
  else (displays, current)

/-- `_get_linux_displays`: xrandr parse with a DRM listing fallback; all
failures are swallowed, yielding whatever was collected. -/
def linuxDisplays (env : Env) : List (List (String × String)) :=
  match safe_subprocess env ["xrandr", "--verbose"] 5 with
  | .error _ => []
  | .ok output =>
    let ds :=
      if output ≠ "" then
        let st := (pySplitCh output '\n').foldl xrandrLineStep ([], [])
        if st.2 ≠ [] then st.1 ++ [st.2] else st.1
      else []
    if ds = [] then
      match safe_subprocess env ["ls", "/sys/class/drm/"] 5 with
      | .error _ => ds
      | .ok drm =>
        if drm ≠ "" then
          (pySplitCh drm '\n').filterMap (fun l =>
            if (pyIn "card" l && pyIn "eDP" l) || pyIn "HDMI" l || pyIn "DP" l then
              some [("Name", pyStrip l), ("Status", "Detected via DRM")]
            else none)
        else ds
    else ds

/-- One step of the PowerShell display parse; the third state component
records an abort (a malformed adapter-memory figure raised), after which
the collected displays are returned as they stand. -/
def winPsStep (st : List (List (String × String)) × List (String × String) × Bool)
    (raw : String) : List (List (String × String)) × List (String × String) × Bool :=
  if st.2.2 then st else
  let line := pyStrip raw
  if pyIn ":" line then
    let parts := pySplitChMax line ':' 1
    let key := pyStrip (parts.headD "")
    let value := pyStrip (parts.getD 1 "")
    if key = "Name" && value ≠ "" then
      let displays := if st.2.1 ≠ [] then st.1 ++ [st.2.1] else st.1
      (displays, [("Name", value)], false)
    else if key = "VideoModeDescription" && value ≠ "" then
      (st.1, dictAssign st.2.1 "Resolution" value, false)
    else if key = "RefreshRate" && value ≠ "" && value ≠ "0" then
      (st.1, dictAssign st.2.1 "Refresh Rate" (value ++ " Hz"), false)
    else if key = "AdapterRAM" && value ≠ "" && value ≠ "0" then
      match pyIntParse value with
      | .error _ => (st.1, st.2.1, true)
      | .ok n => (st.1, dictAssign st.2.1 "Video Memory" (fmt1 (intDivF n gib) ++ " GB"), false)
    else st
  else st

/-- The PowerShell command line used for display enumeration. -/
def winPsDisplayCmd : List String :=
  ["powershell", "-Command",
   "Get-WmiObject -Class Win32_VideoController | Select-Object Name, VideoModeDescription, RefreshRate, AdapterRAM | Format-List"]

/-- `_get_windows_displays`: PowerShell parse with a wmic fallback. -/
def windowsDisplays (env : Env) : List (List (String × String)) :=
  match safe_subprocess env winPsDisplayCmd 10 with
  | .error _ => []
  | .ok output =>
    let st :=
      if output ≠ "" then (pySplitCh output '\n').foldl winPsStep ([], [], false)
      else ([], [], false)
    if st.2.2 then st.1
    else
      let ds := if st.2.1 ≠ [] then st.1 ++ [st.2.1] else st.1
      if ds = [] then
        match safe_subprocess env ["wmic", "desktopmonitor", "get", "ScreenWidth,ScreenHeight,Name"] 5 with
        | .error _ => ds
        | .ok output2 =>
          if output2 ≠ "" then
            let lines := ((pySplitCh output2 '\n').map pyStrip).filter (fun l => l ≠ "")
            if 1 < lines.length then
              (lines.drop 1).filterMap (fun line =>
                let parts := pySplitWs line
                if 2 ≤ parts.length then
                  let width := parts.getD 1 ""
                  let height := parts.getD 0 ""
                  if pyIsDigitStr width && pyIsDigitStr height then
                    some [("Resolution", width ++ "x" ++ height), ("Status", "Active")]
                  else none
                else none)
            else ds
          else ds
      else ds

/-- Number the display records and render their fields. -/
def renderDisplaysGo : Nat → List (List (String × String)) → List String
  | _, [] => []
  | i, d :: rest =>
    ("\n### Display " ++ Nat.repr i)
      :: d.map (fun kv => "- **" ++ kv.1 ++ "**: " ++ kv.2)
      ++ renderDisplaysGo (i + 1) rest

/-- Render the display list, or a placeholder when none were detected. -/
def renderDisplays (displays : List (List (String × String))) : List String :=
  if displays ≠ [] then renderDisplaysGo 1 displays
  else ["- **Status**: No displays detected"]

/-- The platform dispatch inside `get_display_info`. -/
def displayBody (env : Env) : PRes Unit := do
  if env.platformSystem = "Darwin" then
    let displays ← liftE (macosDisplays env)
    emitAll (renderDisplays displays)
  else if env.platformSystem = "Linux" then
    emitAll (renderDisplays (linuxDisplays env))
  else if env.platformSystem = "Windows" then
    emitAll (renderDisplays (windowsDisplays env))
  else
    emit "- **Status**: Display detection not supported on this platform"

/-- `get_display_info`: header, platform dispatch, and a catch-all that
renders any raise as an inline error line. -/
def get_display_info (env : Env) : PRes Unit := do
  emit "## 🖥️ Display Information"
  pytry (displayBody env) (fun e => ["⚠️ **Display detection error**: " ++ e.msg])

/-! ### Network collector -/

/-- Render the address lines of one interface: IPv4 addresses with
their netmask, IPv6 addresses unless link-local (`fe80`-prefixed). -/
def ifAddrLines (addrs : List IfAddr) : List String :=
  addrs.flatMap (fun addr =>
    if addr.family = "AF_INET" then
      ["- **IPv4**: " ++ addr.address]
      ++ (match addr.netmask with
          | some m => if m ≠ "" then ["  - **Netmask**: " ++ m] else []
          | none => [])
    else if addr.family = "AF_INET6" then
      if !(pyStarts addr.address "fe80") then ["- **IPv6**: " ++ addr.address] else []
    else [])

/-- The section for one interface: empty for loopback and tunnel names
and for interfaces that are not known to be up. -/
def interfaceBlock (netStats : List (String × IfStats)) (ia : String × List IfAddr) :
    List String :=
  if pyStarts ia.1 "lo" || pyStarts ia.1 "utun" then []
  else
    match netStats.find? (fun st => st.1 = ia.1) with
    | some st =>
      if st.2.isup then
        ("\n### " ++ ia.1)
          :: ("- **Status**: " ++ (if st.2.isup then "Up" else "Down"))
          :: ifAddrLines ia.2
      else []
    | none => []

/-- Per-interface sections: loopback and tunnel interfaces are skipped,
and only interfaces with statistics reporting up are rendered. -/
def interfaceLines (netInterfaces : List (String × List IfAddr))
    (netStats : List (String × IfStats)) : List String :=
  netInterfaces.flatMap (interfaceBlock netStats)

/-- `_get_default_gateway` (guarded; every failure yields the empty string). -/
def defaultGateway (env : Env) : String :=
  if env.platformSystem = "Darwin" then
    match safe_subprocess env ["route", "-n", "get", "default"] 5 with
    | .error _ => ""
    | .ok output =>
      match (pySplitCh output '\n').find? (fun l => pyIn "gateway:" l) with
      | some l => pyStrip (pySplitLast l ':')
      | none => ""
  else if env.platformSystem = "Linux" then
    match safe_subprocess env ["ip", "route", "show", "default"] 5 with
    | .error _ => ""
    | .ok output =>
      if output ≠ "" then
        let parts := pySplitWs output
        if 3 ≤ parts.length then parts.getD 2 "" else ""
      else ""
  else ""

/-- Linux resolver-file scan with the partial-on-failure semantics of
the guarded loop: a malformed nameserver line aborts the scan, keeping
the entries collected so far. -/
def resolvScan : List String → List String
  | [] => []
  | line :: rest =>
    if pyStarts line "nameserver" then
      let parts := pySplitWs line
      if 2 ≤ parts.length then parts.getD 1 "" :: resolvScan rest
      else []
    else resolvScan rest

/-- `_get_dns_servers` (guarded; failures yield what was collected). -/
def dnsServers (env : Env) : List String :=
  if env.platformSystem = "Darwin" then
    match safe_subprocess env ["scutil", "--dns"] 5 with
    | .error _ => []
    | .ok output =>
      (pySplitCh output '\n').foldl (fun acc line =>
        if pyIn "nameserver[0]" line then
          let dns := pyStrip (pySplitLast line ':')
          if acc.contains dns then acc else acc ++ [dns]
        else acc) []
  else if env.platformSystem = "Linux" then
    match env.resolvConf with
    | .error _ => []
    | .ok content => resolvScan (pySplitCh content '\n')
  else []

/-- `_get_external_ip`: the body text of a successful lookup, otherwise
the literal fallback. -/
def externalIP (env : Env) : String :=
  match env.extIP with
  | .timeout => "Unable to determine"
  | .connectionFailure => "Unable to determine"
  | .response status body =>
    if status = 200 then pyStrip body else "Unable to determine"

/-- `_detect_vpn`: scan every interface name (no filtering) for tunnel
name patterns backed by an up status. -/
def detectVpn (netInterfaces : List (String × List IfAddr))
    (netStats : List (String × IfStats)) : String :=
  let hit := netInterfaces.any (fun ia =>
    (["tun", "tap", "vpn", "utun"].any (fun pat => pyIn pat (pyLower ia.1))) &&
    (match netStats.find? (fun st => st.1 = ia.1) with
     | some st => st.2.isup
     | none => false))
  if hit then "Active" else "Not detected"

/-- `get_network_info`: interface sections, gateway, DNS, external IP,
VPN heuristic.  The two interface-table reads are unguarded. -/
def get_network_info (env : Env) : PRes Unit := do
  emit "\n## 🌐 Network"
  let netInterfaces ← liftE env.netIfAddrs
  let netStats ← liftE env.netIfStats
  emitAll (interfaceLines netInterfaces netStats)
  let gateway := defaultGateway env
  if gateway ≠ "" then
    emit ("\n- **Default Gateway**: " ++ gateway)
  let dns := dnsServers env
  if dns ≠ [] then
    emit ("- **DNS Servers**: " ++ String.intercalate ", " (dns.take 3))
  emit ("- **External IP**: " ++ externalIP env)
  emit ("- **VPN Status**: " ++ detectVpn netInterfaces netStats)

/-! ### Storage collector -/

/-- Division as the host language performs it on integers: a zero
divisor raises. -/
def pyDivInt (a b : Int) : Except PyExc PyFloat :=
  if b = 0 then .error ⟨.zeroDivisionError, "division by zero"⟩
  else .ok (intDivF a b)

/-- The lines rendered for one accessible partition. -/
def partitionLines (p : PartitionRec) (diskType : String) (u : DiskUsage)
    (usedPercent : PyFloat) : List String :=
  [ "\n### " ++ p.device ++ " (" ++ p.mountpoint ++ ")",
    "- **Type**: " ++ diskType ++ " (" ++ p.fstype ++ ")",
    "- **Total**: " ++ fmt1 (intDivF u.total gib) ++ " GB",
    "- **Free**: " ++ fmt1 (intDivF u.free gib) ++ " GB ("
      ++ fmt1 ((PyFloat.ofNat 100).sub usedPercent) ++ "% free)",
    "- **Used**: " ++ fmt1 usedPercent ++ "%" ]

/-- The partition loop of `get_storage_info`: inaccessible partitions
are skipped, temporary filesystems are skipped after their usage was
computed (so a zero total still raises), removable media are labelled. -/
def partsLoop (env : Env) : List PartitionRec → PRes Unit
  | [] => pure ()
  | p :: rest => do
    match env.diskUsage p.mountpoint with
    | .permissionError => partsLoop env rest
    | .osError => partsLoop env rest
    | .ok u =>
      let usedPercent ← liftE (do
        let q ← pyDivInt u.used u.total
        pure (q.mul (PyFloat.ofNat 100)))
      if p.opts ≠ "" && pyIn "removable" p.opts then
        emitAll (partitionLines p "Removable" u usedPercent)
        partsLoop env rest
      else if p.fstype = "tmpfs" || p.fstype = "devtmpfs" then
        partsLoop env rest
      else
        emitAll (partitionLines p "Fixed" u usedPercent)
        partsLoop env rest

/-- `get_storage_info`. -/
def get_storage_info (env : Env) : PRes Unit := do
  emit "\n## 💾 Storage"
  let parts ← liftE env.diskPartitions
  partsLoop env parts

/-! ### User/session collector -/

/-- `_get_user_full_name` (guarded; failures yield the empty string). -/
def userFullName (env : Env) (username : String) : String :=
  if env.platformSystem = "Darwin" then
    match safe_subprocess env ["id", "-F", username] 5 with
    | .error _ => ""
    | .ok output =>
      if output ≠ "" && pyStrip output ≠ username then pyStrip output else ""
  else if env.platformSystem = "Linux" then
    match env.pwnam username with
    | .error _ => ""
    | .ok pw =>
      if pw.gecos ≠ "" then
        let fullName := (pySplitCh pw.gecos ',').headD ""
        if fullName ≠ "" then fullName else ""
      else ""
  else ""

/-- Guarded session-start line. -/
def sessionLines (env : Env) : List String :=
  match env.procCreateTime with
  | .error _ => []
  | .ok t => ["- **Session Start**: " ++ env.fmtTimestamp t]

/-- `get_user_session_info`; the user lookup is unguarded. -/
def get_user_session_info (env : Env) : PRes Unit := do
  emit "\n## 👤 User & Session"
  let currentUser ← liftE env.getuser
  emit ("- **Current User**: " ++ currentUser)
  let fullName := userFullName env currentUser
  if fullName ≠ "" then
    emit ("- **Full Name**: " ++ fullName)
  emitAll (sessionLines env)

/-! ### Time/locale collector -/

/-- The timezone offset the source selects: standard offset, or the
alternate offset when daylight saving is in effect. -/
def timezoneOffset (env : Env) : Int :=
  if env.daylight = 0 then env.timezoneSecs else env.altzoneSecs

/-- The timezone name the source selects. -/
def timezoneName (env : Env) : String :=
  if env.daylight = 0 then env.tzname0 else env.tzname1

/-- The timezone lines: name, and a UTC offset rendered as whole hours
by flooring division, with a constant zero minutes field. -/
def timezoneLines (env : Env) : List String :=
  let utcOffset := timezoneOffset env
  let offsetHours := Int.fdiv (-utcOffset) 3600
  let offsetSign := if 0 ≤ offsetHours then "+" else "-"
  [ "- **Timezone**: " ++ timezoneName env,
    "- **UTC Offset**: UTC" ++ offsetSign ++ pad2 offsetHours.natAbs ++ ":00" ]

/-- Guarded locale lines. -/
def localeLines (env : Env) : List String :=
  match env.defaultLocale with
  | .error _ => []
  | .ok loc =>
    (match loc.lang with
     | some s => if s ≠ "" then ["- **System Language**: " ++ s] else []
     | none => [])
    ++ (match loc.enc with
        | some s => if s ≠ "" then ["- **Encoding**: " ++ s] else []
        | none => [])

/-- `get_time_locale_info` (fully guarded; never raises). -/
def get_time_locale_info (env : Env) : PRes Unit := do
  emit "\n## 🕐 Time & Locale"
  emit ("- **Current Time**: " ++ env.fmtTimestamp env.nowTs)
  emitAll (timezoneLines env)
  emitAll (localeLines env)

/-! ### Connected-devices collector -/

/-- A single-quote character, used inside rendered command lines. -/
def sq : String := ⟨[Char.ofNat 39]⟩

/-- Substrings marking profiler metadata lines to exclude from the USB
device listing. -/
def usbSkipList : List String :=
  ["usb", "bus", "host controller", "root hub", "hub",
   "product id", "vendor id", "version", "speed", "location id",
   "current", "manufacturer", "extra operating", "serial number",
   "pci device", "pci revision", "pci vendor"]

/-- One line of Darwin USB-profiler output, rendered when it looks like
an actual device name. -/
def usbDarwinLine (raw : String) : Option String :=
  let line := pyStrip raw
  if line ≠ "" && pyIn ":" line && !(pyStarts line " ")
     && !(usbSkipList.any (fun skip => pyIn skip (pyLower line))) then
    let deviceName := pyStrip ((pySplitCh line ':').headD "")
    if deviceName ≠ "" && 5 < deviceName.data.length
       && deviceName.data.any Char.isAlpha
       && !(pyStarts (pyLower deviceName) "usb") then
      some ("- **" ++ deviceName ++ "**")
    else none
  else none

/-- The PowerShell command line used for USB enumeration. -/
def winUsbCmd : List String :=
  ["powershell", "-Command",
   "Get-WmiObject -Class Win32_USBControllerDevice | ForEach-Object \x7b [wmi]($_.Dependent) \x7d | Select-Object Name, DeviceID"]

/-- `get_usb_devices` (guarded; a raise yields the unavailability note). -/
def get_usb_devices (env : Env) : List String :=
  if env.platformSystem = "Darwin" then
    match safe_subprocess env ["system_profiler", "SPUSBDataType"] 5 with
    | .error _ => ["### USB Devices", "- *USB device detection not available*"]
    | .ok output =>
      if output ≠ "" then
        "### USB Devices" :: (pySplitCh output '\n').filterMap usbDarwinLine
      else []
  else if env.platformSystem = "Linux" then
    match safe_subprocess env ["lsusb"] 5 with
    | .error _ => ["### USB Devices", "- *USB device detection not available*"]
    | .ok output =>
      if output ≠ "" then
        "### USB Devices" :: (pySplitCh output '\n').filterMap (fun line =>
          if pyStrip line ≠ "" then
            let parts := pySplitChMax line ' ' 6
            if 7 ≤ parts.length then some ("- **" ++ parts.getD 6 "" ++ "**") else none
          else none)
      else []
  else if env.platformSystem = "Windows" then
    match safe_subprocess env winUsbCmd 5 with
    | .error _ => ["### USB Devices", "- *USB device detection not available*"]
    | .ok output =>
      if output ≠ "" then
        "### USB Devices" :: ((pySplitCh output '\n').drop 2).filterMap (fun line =>
          if pyStrip line ≠ "" then some ("- **" ++ pyStrip line ++ "**") else none)
      else []
  else []

/-- Substrings marking Bluetooth metadata lines to exclude. -/
def btSkipList : List String :=
  ["address:", "state:", "chipset:", "firmware", "product id:",
   "vendor id:", "transport:", "supported services", "discoverable:",
   "rssi:", "serial number", "case version", "minor type"]

/-- Scan Darwin Bluetooth-profiler lines, tracking the connection
section and rendering properly indented device names under it. -/
def btDarwinGo : String → List String → List String
  | _, [] => []
  | sect, raw :: rest =>
    let stripped := pyStrip raw
    if stripped = "Connected:" || stripped = "Not Connected:" then
      btDarwinGo stripped rest
    else if stripped ≠ "" && pyIn ":" stripped && pyStarts raw "          " && sect ≠ ""
            && !(btSkipList.any (fun skip => pyIn skip (pyLower stripped))) then
      let deviceName := pyStrip ((pySplitCh stripped ':').headD "")
      if deviceName ≠ "" && 2 < deviceName.data.length && !(pyIn "Controller" deviceName) then
        (if sect = "Connected:" then ["- **" ++ deviceName ++ "** (Connected)"]
         else if sect = "Not Connected:" then ["- **" ++ deviceName ++ "** (Paired, not connected)"]
         else []) ++ btDarwinGo sect rest
      else btDarwinGo sect rest
    else btDarwinGo sect rest

/-- The PowerShell command line used for Bluetooth enumeration. -/
def winBtCmd : List String :=
  ["powershell", "-Command",
   "Get-WmiObject -Class Win32_PnPEntity | Where-Object \x7b $_.Name -like " ++ sq ++ "*Bluetooth*" ++ sq ++ " \x7d | Select-Object Name"]

/-- `get_bluetooth_devices` (guarded like the USB scan). -/
def get_bluetooth_devices (env : Env) : List String :=
  if env.platformSystem = "Darwin" then
    match safe_subprocess env ["system_profiler", "SPBluetoothDataType"] 5 with
    | .error _ => ["### Bluetooth Devices", "- *Bluetooth device detection not available*"]
    | .ok output =>
      if output ≠ "" then
        "### Bluetooth Devices" :: btDarwinGo "" (pySplitCh output '\n')
      else []
  else if env.platformSystem = "Linux" then
    match safe_subprocess env ["bluetoothctl", "devices"] 5 with
    | .error _ => ["### Bluetooth Devices", "- *Bluetooth device detection not available*"]
    | .ok output =>
      if output ≠ "" then
        "### Bluetooth Devices" :: (pySplitCh output '\n').filterMap (fun line =>
          if pyStarts line "Device" then
            let parts := pySplitChMax line ' ' 2
            if 3 ≤ parts.length then some ("- **" ++ parts.getD 2 "" ++ "**") else none
          else none)
      else []
  else if env.platformSystem = "Windows" then
    match safe_subprocess env winBtCmd 5 with
    | .error _ => ["### Bluetooth Devices", "- *Bluetooth device detection not available*"]
    | .ok output =>
      if output ≠ "" then
        "### Bluetooth Devices" :: ((pySplitCh output '\n').drop 2).filterMap (fun line =>
          if pyStrip line ≠ "" then some ("- **" ++ pyStrip line ++ "**") else none)
      else []
  else []

/-- `get_connectivity_devices`: USB and Bluetooth listings, each
included only when it holds more than its header. -/
def get_connectivity_devices (env : Env) : PRes Unit := do
  emit "## 🔌 Connected Devices"
  let usb := get_usb_devices env
  if 1 < usb.length then
    emitAll usb
  let bt := get_bluetooth_devices env
  if 1 < bt.length then
    emit ""
    emitAll bt

/-! ### Process collector -/

/-- Stable insertion of an element into a sorted list: placed before the
first element it may precede. -/
def insSorted (le : α → α → Bool) (a : α) : List α → List α
  | [] => [a]
  | b :: bs => if le a b then a :: b :: bs else b :: insSorted le a bs

/-- Stable sort by insertion; given a total transitive `le` this is the
unique stable sort, hence the model of the host sort routine. -/
def insSort (le : α → α → Bool) : List α → List α
  | [] => []
  | a :: as => insSorted le a (insSort le as)

/-- Threshold 0.1 for CPU activity. -/
def pf01 : PyFloat := ⟨1, 10, by omega⟩

/-- Threshold 0.5 for memory use. -/
def pf05 : PyFloat := ⟨1, 2, by omega⟩

/-- Core OS processes always shown regardless of activity. -/
def procAllowList : List String := ["kernel_task", "systemd", "init", "launchd"]

/-- Descending composite order on (CPU, memory): `a` may precede `b`
when the key of `a` is at least the key of `b`. -/
def procKeyGE (a b : ProcEntry) : Bool :=
  b.cpu.blt a.cpu || (b.cpu.beqF a.cpu && b.mem.ble a.mem)

/-- The process sort: stable, descending by (CPU, memory). -/
def procSort (ps : List ProcEntry) : List ProcEntry := insSort procKeyGE ps

/-- Name truncated for display (also the name the allow-list check sees). -/
def truncName (p : ProcEntry) : String := ⟨p.name.data.take 20⟩

/-- Executable path, falling back to the first command-line token. -/
def rawExePath (p : ProcEntry) : String :=
  let e := match p.exe with | some s => s | none => ""
  if e = "" then (if p.cmdline ≠ [] then p.cmdline.headD "" else "") else e

/-- Path shortened for display, or a placeholder when absent. -/
def displayPath (e : String) : String :=
  if e ≠ "" then
    if 40 < e.data.length then "..." ++ (⟨e.data.drop (e.data.length - 37)⟩ : String)
    else e
  else "N/A"

/-- Should this process get a table row: active enough, or allow-listed. -/
def procRowCond (p : ProcEntry) : Bool :=
  pf01.blt p.cpu || pf05.blt p.mem || procAllowList.contains (pyLower (truncName p))

/-- Render one process table row. -/
def renderProcRow (p : ProcEntry) : String :=
  "| " ++ Nat.repr p.pid ++ " | " ++ truncName p ++ " | " ++ fmt1 p.cpu ++ "% | "
    ++ fmt1 p.mem ++ "% | " ++ displayPath (rawExePath p) ++ " |"

/-- The display loop: stop at twenty rendered rows, render a row only
for qualifying processes, counting only rendered rows. -/
def procRows : List ProcEntry → Nat → List String
  | [], _ => []
  | p :: ps, count =>
    if 20 ≤ count then []
    else if procRowCond p then renderProcRow p :: procRows ps (count + 1)
    else procRows ps count

/-- The processes selected by the display loop (the rows, before rendering). -/
def procSelect : List ProcEntry → Nat → List ProcEntry
  | [], _ => []
  | p :: ps, count =>
    if 20 ≤ count then []
    else if procRowCond p then p :: procSelect ps (count + 1)
    else procSelect ps count

/-- Keep the accessible processes with a nonempty name. -/
def procFilter (items : List ProcIterItem) : List ProcEntry :=
  items.filterMap (fun it =>
    match it with
    | .item p => if p.name ≠ "" then some p else none
    | .denied => none)

/-- The guarded body of the process collector. -/
def processesBody (env : Env) : PRes Unit := do
  let items ← liftE env.processIter
  let processes := procFilter items
  let sorted := procSort processes
  emit "\n### Top Processes (by CPU/Memory usage)"
  emit "| PID | Name | CPU% | Memory% | Path |"
  emit "|-----|------|------|---------|------|"
  emitAll (procRows sorted 0)
  emit ("\n**Summary**: " ++ Nat.repr processes.length ++ " total processes, "
        ++ Nat.repr (processes.countP (fun p => (PyFloat.ofNat 0).blt p.cpu)) ++ " active")

/-- `get_running_processes`. -/
def get_running_processes (env : Env) : PRes Unit := do
  emit "## ⚙️ Running Processes"
  pytry (processesBody env)
    (fun e => ["⚠️ **Error collecting process information**: " ++ e.msg])

/-! ### Port collector -/

/-- One deduplicated listening-port record. -/
structure PortInfo where
  port : Nat
  ip : String
  protocol : String
  process : String
  executable : String
  pid : Option Nat
deriving DecidableEq, Repr

/-- One established connection summary. -/
structure EstConn where
  localA : String
  remote : String
  pid : Option Nat
deriving DecidableEq, Repr

/-- The deduplication key: address and port joined by a colon. -/
def mkPortKey (ip : String) (port : Nat) : String := ip ++ ":" ++ Nat.repr port

/-- Resolve the owning process of a listening socket: name and
executable, with permission failures rendered as denials. -/
def resolvePortProc (env : Env) (c : Conn) : String × String :=
  match c.pid with
  | none => ("Unknown", "N/A")
  | some p =>
    if p ≠ 0 then
      match env.pidInfo p with
      | .found name exeL =>
        (name, match exeL with
               | .path s => if s ≠ "" then s else "N/A"
               | .denied => "Access denied")
      | .missing => ("Access denied", "N/A")
      | .denied => ("Access denied", "N/A")
    else ("Unknown", "N/A")

/-- The record stored for a newly seen listening socket. -/
def portRecordOf (env : Env) (c : Conn) (l : ConnAddr) : PortInfo :=
  { port := l.port, ip := l.ip,
    protocol := if c.typ = 1 then "TCP" else "UDP",
    process := (resolvePortProc env c).1,
    executable := (resolvePortProc env c).2,
    pid := c.pid }

/-- Fold the socket table into the insertion-ordered listening map,
one entry per previously unseen key. -/
def buildListening (env : Env) : List Conn → List (String × PortInfo) → List (String × PortInfo)
  | [], acc => acc
  | c :: rest, acc =>
    match c.status, c.laddr with
    | .listen, some l =>
      if acc.any (fun kv => kv.1 = mkPortKey l.ip l.port) then buildListening env rest acc
      else buildListening env rest (acc ++ [(mkPortKey l.ip l.port, portRecordOf env c l)])
    | _, _ => buildListening env rest acc

/-- The established connections of the socket table, in order. -/
def establishedOf (conns : List Conn) : List EstConn :=
  conns.filterMap (fun c =>
    match c.status, c.laddr, c.raddr with
    | .established, some l, some r =>
      some { localA := mkPortKey l.ip l.port, remote := mkPortKey r.ip r.port, pid := c.pid }
    | _, _, _ => none)

/-- Ascending order on port numbers. -/
def portLe (a b : PortInfo) : Bool := decide (a.port ≤ b.port)

/-- Sort the listening records ascending by port (stable). -/
def sortPorts (l : List PortInfo) : List PortInfo := insSort portLe l

/-- Render one listening-port table row. -/
def renderPortRow (r : PortInfo) : String :=
  let process : String := ⟨r.process.data.take 25⟩
  let pidStr := match r.pid with
    | some p => if p ≠ 0 then Nat.repr p else "N/A"
    | none => "N/A"
  let bindAddr0 := if r.ip = "0.0.0.0" then "All interfaces" else r.ip
  let bindAddr :=
    if r.ip = "127.0.0.1" then "Localhost only"
    else if pyStarts r.ip "::" then "IPv6"
    else bindAddr0
  "| " ++ Nat.repr r.port ++ " | " ++ r.protocol ++ " | " ++ bindAddr ++ " | "
    ++ process ++ " | " ++ pidStr ++ " |"

/-- Count established connections per remote host (insertion-ordered). -/
def bumpHost (acc : List (String × Nat)) (h : String) : List (String × Nat) :=
  if acc.any (fun kv => kv.1 = h) then
    acc.map (fun kv => if kv.1 = h then (kv.1, kv.2 + 1) else kv)
  else acc ++ [(h, 1)]

/-- The remote-host frequency table. -/
def hostCounts (est : List EstConn) : List (String × Nat) :=
  est.foldl (fun acc e => bumpHost acc ((pySplitCh e.remote ':').headD "")) []

/-- Descending order on connection counts. -/
def hostDesc (a b : String × Nat) : Bool := decide (b.2 ≤ a.2)

/-- The three-tier privilege fallback for reading the socket table. -/
def getConnections (env : Env) : Except PyExc (List Conn) :=
  match env.netConnections with
  | .ok cs => .ok cs
  | .error e =>
    if e.kind = ExcKind.accessDenied then
      match env.netConnectionsNoPid with
      | .ok cs => .ok cs
      | .error _ => env.procConnectionsSelf
    else .error e

/-- The guarded body of the port collector. -/
def portsBody (env : Env) : PRes Unit := do
  let connections ← liftE (getConnections env)
  let listening := buildListening env connections []
  let established := establishedOf connections
  if listening ≠ [] then
    emit "\n### Listening Ports"
    emit "| Port | Protocol | Bind Address | Process | PID |"
    emit "|------|----------|--------------|---------|-----|"
    emitAll ((sortPorts (listening.map Prod.snd)).map renderPortRow)
  if established ≠ [] then
    emit "\n### Active Connections"
    emit ("**Total established connections**: " ++ Nat.repr established.length)
    let remoteHosts := hostCounts established
    if remoteHosts ≠ [] then
      emit "\n**Top remote hosts by connection count**:"
      emitAll (((insSort hostDesc remoteHosts).take 10).map (fun hc =>
        "- " ++ hc.1 ++ ": " ++ Nat.repr hc.2 ++ " connection" ++ (if 1 < hc.2 then "s" else "")))
  emit ("\n**Summary**: " ++ Nat.repr listening.length ++ " listening ports, "
        ++ Nat.repr established.length ++ " active connections")

/-- `get_network_ports`. -/
def get_network_ports (env : Env) : PRes Unit := do
  emit "## 🌐 Network Ports"
  pytry (portsBody env)
    (fun e => ["⚠️ **Error collecting network port information**: " ++ e.msg])

/-! ### Report assembler -/

/-- Title and generation-timestamp lines of the full report. -/
def reportHeader (env : Env) : List String :=
  ["# Complete System Report", "*Generated: " ++ env.fmtTimestamp env.nowTs ++ "*\n"]

/-- Closing lines of the full report. -/
def reportFooter : List String := ["\n---", "*Complete system analysis finished*"]

/-- The exception raised at the display step of the full report.  The
name called there is, at server module level, the tool object the
server decorator registered, which shadows the collectors import (the
processes step and the display tool itself re-import the collector
under a fresh name to dodge this; the display step of the report does
not); calling the tool object raises a type error. -/
def displayToolErr : PyExc := ⟨.typeError, "\x27FunctionTool\x27 object is not callable"⟩

/-- The guarded body of the full report: identity and hardware, then
the display step, which calls the shadowed name and raises, aborting
every remaining collector call of the fixed order. -/
def fullReportBody (env : Env) : PRes Unit := do
  get_system_identity env
  get_hardware_info env
  (liftE (Except.error displayToolErr) : PRes Unit)
  get_network_info env
  get_storage_info env
  get_connectivity_devices env
  get_running_processes env
  get_network_ports env
  get_user_session_info env
  get_time_locale_info env

/-- The lines of the full report: header, body (with the catch-all
error line on a raise), footer. -/
def fullReportLines (env : Env) : List String :=
  reportHeader env
  ++ (pytry (fullReportBody env)
       (fun e => ["\n⚠️ **Error collecting system info**: " ++ e.msg])).out
  ++ reportFooter

/-- `get_full_system_report`: the report text. -/
def get_full_system_report (env : Env) : String :=
  String.intercalate "\n" (fullReportLines env)

/-- Names for the ten collectors, in report order. -/
inductive CollectorId where
  | identity
  | hardware
  | display
  | network
  | storage
  | connectivity
  | processes
  | ports
  | userSession
  | timeLocale
deriving DecidableEq, Repr

/-- Dispatch a collector by name. -/
def runCollector : CollectorId → Env → PRes Unit
  | .identity, env => get_system_identity env
  | .hardware, env => get_hardware_info env
  | .display, env => get_display_info env
  | .network, env => get_network_info env
  | .storage, env => get_storage_info env
  | .connectivity, env => get_connectivity_devices env
  | .processes, env => get_running_processes env
  | .ports, env => get_network_ports env
  | .userSession, env => get_user_session_info env
  | .timeLocale, env => get_time_locale_info env

/-- The concatenation, in report order, of the ten collector outputs. -/
def collectorOutputs (env : Env) : List String :=
  (get_system_identity env).out
  ++ (get_hardware_info env).out
  ++ (get_display_info env).out
  ++ (get_network_info env).out
  ++ (get_storage_info env).out
  ++ (get_connectivity_devices env).out
  ++ (get_running_processes env).out
  ++ (get_network_ports env).out
  ++ (get_user_session_info env).out
  ++ (get_time_locale_info env).out

/-! ### Benign environments

The collectors guard their external commands and optional sub-probes,
but a handful of direct library reads are unguarded.  `Benign` states
that exactly those unguarded probes succeed (external commands may still
fail in any of the three caught ways, and every guarded probe may fail
arbitrarily); under it no collector raises.
-/

/-- Does this claim-relevant probe value denote success. -/
def okE (x : Except PyExc α) : Prop := ∃ v, x = .ok v

/-- The unguarded probes succeed; everything guarded is unconstrained. -/
structure Benign (env : Env) : Prop where
  cmdOk : ∀ c t, env.cmd c t ≠ SubprocessOutcome.permissionError
  cpuCountPhysicalOk : okE env.cpuCountPhysical
  cpuCountLogicalOk : okE env.cpuCountLogical
  cpuFreqOk : okE env.cpuFreq
  cpuPercentOk : okE env.cpuPercent
  virtualMemoryOk : okE env.virtualMemory
  swapMemoryOk : okE env.swapMemory
  bootTimeOk : okE env.bootTime
  netIfAddrsOk : okE env.netIfAddrs
  netIfStatsOk : okE env.netIfStats
  diskPartitionsOk : okE env.diskPartitions
  diskTotalsNz : ∀ mp u, env.diskUsage mp = .ok u → u.total ≠ 0
  getuserOk : okE env.getuser

/-- Did the external-IP lookup fail (timeout, connection failure, or a
non-200 status). -/
def extIPFailed : ExtIPOutcome → Bool
  | .timeout => true
  | .connectionFailure => true
  | .response status _ => status ≠ 200

/-! ### Round half to even over `ℚ`

`PyFloat.roundHE` is integer arithmetic; `rndHE` is the same function
over `ℚ`, where the complement identity behind the storage-percentage
claim is proved, and the two are related through `PyFloat.toRat`.
-/

/-- Round half to even on a rational. -/
def rndHE (q : ℚ) : ℤ :=
  if Int.fract q = 1 / 2 then (if ⌊q⌋ % 2 = 0 then ⌊q⌋ else ⌊q⌋ + 1)
  else ⌊q + 1 / 2⌋

/-! ### Concrete environments

`baseEnv` is a small fully benign environment; the deviant environments
below override single probes to exhibit particular behaviours.
-/

/-- A benign reference environment. -/
def baseEnv : Env where
  platformSystem := "Linux"
  node := "host1"
  release := "6.1"
  machine := "x86_64"
  processor := "x86_64"
  cmd := fun _ _ => .fileNotFoundError
  jsonLoads := fun _ => .error ⟨.valueError, "bad json"⟩
  cpuCountPhysical := .ok (some 4)
  cpuCountLogical := .ok (some 8)
  cpuFreq := .ok none
  cpuPercent := .ok ⟨123, 10, by omega⟩
  virtualMemory := .ok ⟨17179869184, 8589934592, ⟨500, 10, by omega⟩⟩
  swapMemory := .ok ⟨0, ⟨0, 1, by omega⟩⟩
  sensorsBattery := .ok none
  powerNowFile := .error ⟨.fileNotFoundError, "no file"⟩
  capacityFile := .error ⟨.fileNotFoundError, "no file"⟩
  chargeFullDesignFile := .error ⟨.fileNotFoundError, "no file"⟩
  chargeFullFile := .error ⟨.fileNotFoundError, "no file"⟩
  bootTime := .ok 1000000
  nowTs := 1175000
  fmtTimestamp := fun t => "1970-01-14 " ++ Int.repr t
  netIfAddrs := .ok [("lo", [⟨"AF_INET", "127.0.0.1", some "255.0.0.0"⟩]),
                     ("eth0", [⟨"AF_INET", "10.0.0.5", some "255.255.255.0"⟩,
                               ⟨"AF_INET6", "fe80::1", none⟩,
                               ⟨"AF_INET6", "2001:db8::1", none⟩]),
                     ("utun0", [⟨"AF_INET", "198.51.100.2", none⟩])]
  netIfStats := .ok [("lo", ⟨true⟩), ("eth0", ⟨true⟩), ("utun0", ⟨true⟩)]
  resolvConf := .ok "nameserver 1.1.1.1\n"
  extIP := .timeout
  diskPartitions := .ok [⟨"/dev/sda1", "/", "ext4", "rw"⟩]
  diskUsage := fun _ => .ok ⟨107374182400, 80530636800, 26843545600⟩
  getuser := .ok "alice"
  pwnam := fun _ => .error ⟨.keyError, "no such user"⟩
  procCreateTime := .ok 1170000
  tzname0 := "IST"
  tzname1 := "IST"
  daylight := 0
  timezoneSecs := -19800
  altzoneSecs := 0
  defaultLocale := .ok ⟨some "en_US", some "UTF-8"⟩
  processIter := .ok []
  netConnections := .ok []
  netConnectionsNoPid := .error ⟨.generic, "fallback unused"⟩
  procConnectionsSelf := .error ⟨.generic, "fallback unused"⟩
  pidInfo := fun _ => .missing

/-- A Darwin environment in which the hardware-profiler binary exists
but is not executable: the command raises a permission error, which the
command helper does not catch. -/
def badEnv : Env :=
  { baseEnv with
    platformSystem := "Darwin"
    cmd := fun c _ =>
      if c = ["system_profiler", "SPHardwareDataType"] then .permissionError
      else .success "" }

/-- An environment whose external commands always succeed with a fixed text. -/
def cmdEnvSuccess : Env := { baseEnv with cmd := fun _ _ => .success "ok-output" }

/-- A Linux environment whose resolver is configured with a link-local
IPv6 nameserver. -/
def fe80DnsEnv : Env := { baseEnv with resolvConf := .ok "nameserver fe80::1%eth0\n" }

/-- Numeric value of digit characters folded onto an accumulator, used
to read back decimal renderings. -/
def valFrom (a : Nat) : List Char → Nat
  | [] => a
  | c :: cs => valFrom (10 * a + (c.toNat - 48)) cs

/-- A socket table listing the same (address, port) pair twice, plus a
pair whose owner lookup is denied. -/
def connsDup : List Conn :=
  [⟨.listen, some ⟨"0.0.0.0", 22⟩, none, some 900, 1⟩,
   ⟨.listen, some ⟨"0.0.0.0", 22⟩, none, some 901, 1⟩,
   ⟨.listen, some ⟨"127.0.0.1", 5432⟩, none, some 902, 1⟩]

/-- An environment reading back that socket table, resolving pid 900
and denying every other lookup. -/
def portsDupEnv : Env :=
  { baseEnv with
    netConnections := .ok connsDup
    pidInfo := fun p =>
      if p = 900 then .found "sshd" (.path "/usr/sbin/sshd") else .denied }

/-- An environment whose process table holds two fully idle processes,
one of them named systemd. -/
def procTwoEnv : Env :=
  { baseEnv with
    processIter := .ok
      [.item ⟨1, "systemd", ⟨0, 1, by omega⟩, ⟨0, 1, by omega⟩, none, []⟩,
       .item ⟨2, "python3", ⟨0, 1, by omega⟩, ⟨0, 1, by omega⟩, none, []⟩] }

/-! ## Verification -/

theorem emit_out (s : String) : (emit s).out = [s] := rfl

theorem emit_res (s : String) : (emit s).res = .ok () := rfl

theorem emitAll_out (l : List String) : (emitAll l).out = l := rfl

theorem emitAll_res (l : List String) : (emitAll l).res = .ok () := rfl

theorem liftE_res (x : Except PyExc α) : (liftE x).res = x := rfl

theorem pres_eta (x : PRes α) : (⟨x.out, x.res⟩ : PRes α) = x := rfl

/-- Unfold a bind whose first component completed normally. -/
theorem bind_of_ok {x : PRes α} {a : α} (f : α → PRes β) (h : x.res = .ok a) :
    x >>= f = ⟨x.out ++ (f a).out, (f a).res⟩ := by
  show PRes.bindP x f = _
  unfold PRes.bindP
  rw [h]

/-- Unfold a bind whose first component raised. -/
theorem bind_of_error {x : PRes α} {e : PyExc} (f : α → PRes β) (h : x.res = .error e) :
    x >>= f = ⟨x.out, .error e⟩ := by
  show PRes.bindP x f = _
  unfold PRes.bindP
  rw [h]

@[simp] theorem emit_bind (s : String) (f : Unit → PRes β) :
    (emit s >>= f) = ⟨s :: (f ()).out, (f ()).res⟩ := by
  show PRes.bindP (emit s) f = _
  unfold PRes.bindP emit
  rfl

@[simp] theorem emitAll_bind (l : List String) (f : Unit → PRes β) :
    (emitAll l >>= f) = ⟨l ++ (f ()).out, (f ()).res⟩ := by
  show PRes.bindP (emitAll l) f = _
  unfold PRes.bindP emitAll
  rfl

@[simp] theorem liftE_ok_bind (a : α) (f : α → PRes β) :
    (liftE (Except.ok a) >>= f) = f a := by
  show PRes.bindP (liftE (Except.ok a)) f = _
  unfold PRes.bindP liftE
  simp

@[simp] theorem liftE_error_bind (e : PyExc) (f : α → PRes β) :
    (liftE (Except.error e) >>= f) = (⟨[], Except.error e⟩ : PRes β) := by
  show PRes.bindP (liftE (Except.error e)) f = _
  unfold PRes.bindP liftE
  rfl

@[simp] theorem pure_bind_pres (a : α) (f : α → PRes β) :
    ((pure a : PRes α) >>= f) = f a := by
  show PRes.bindP (PRes.pureP a) f = _
  unfold PRes.bindP PRes.pureP
  simp

@[simp] theorem pure_out (a : α) : (pure a : PRes α).out = [] := rfl

@[simp] theorem pure_res (a : α) : (pure a : PRes α).res = .ok a := rfl

/-- The catch-all recovery never raises. -/
theorem pytry_res (x : PRes Unit) (handler : PyExc → List String) :
    (pytry x handler).res = .ok () := by
  unfold pytry
  cases hx : x.res with
  | ok a => cases a; exact hx
  | error e => rfl

theorem pytry_of_ok {x : PRes Unit} (handler : PyExc → List String) (h : x.res = .ok ()) :
    pytry x handler = x := by
  unfold pytry
  rw [h]

theorem pytry_of_error {x : PRes Unit} {e : PyExc} (handler : PyExc → List String)
    (h : x.res = .error e) : pytry x handler = ⟨x.out ++ handler e, .ok ()⟩ := by
  unfold pytry
  rw [h]

/-- C3.  For every command and timeout, the external-command helper
returns the command output on success, and returns the empty string on a
missing binary, a process failure, or a timeout, instead of propagating
an error. -/
theorem safe_subprocess_spec (env : Env) (c : List String) (t : Nat) :
    (∀ s, env.cmd c t = .success s → safe_subprocess env c t = .ok s)
    ∧ (env.cmd c t = .calledProcessError → safe_subprocess env c t = .ok "")
    ∧ (env.cmd c t = .timeoutExpired → safe_subprocess env c t = .ok "")
    ∧ (env.cmd c t = .fileNotFoundError → safe_subprocess env c t = .ok "") := by
  refine ⟨fun s h => ?_, fun h => ?_, fun h => ?_, fun h => ?_⟩ <;>
    (unfold safe_subprocess; rw [h]; rfl)

/-- Witness for C3 at concrete environments: a succeeding command and a
missing binary. -/
theorem safe_subprocess_spec_witness :
    safe_subprocess cmdEnvSuccess ["lsusb"] 5 = .ok "ok-output"
    ∧ safe_subprocess baseEnv ["lsusb"] 5 = .ok "" :=
  ⟨(safe_subprocess_spec cmdEnvSuccess ["lsusb"] 5).1 "ok-output" rfl,
   (safe_subprocess_spec baseEnv ["lsusb"] 5).2.2.2 rfl⟩

@[simp] theorem ite_bind (c : Prop) [Decidable c] (x y : PRes α) (f : α → PRes β) :
    ((if c then x else y) >>= f) = if c then x >>= f else y >>= f := by
  split <;> rfl

/-- The network collector output, given successful interface-table reads:
header, interface sections, optional gateway and DNS lines, the external
IP line, the VPN line; and normal completion. -/
theorem network_out (env : Env) (ifs : List (String × List IfAddr))
    (sts : List (String × IfStats))
    (hA : env.netIfAddrs = .ok ifs) (hS : env.netIfStats = .ok sts) :
    (get_network_info env).out =
      "\n## 🌐 Network" :: (interfaceLines ifs sts
        ++ (if defaultGateway env ≠ "" then ["\n- **Default Gateway**: " ++ defaultGateway env] else [])
        ++ (if dnsServers env ≠ [] then
              ["- **DNS Servers**: " ++ String.intercalate ", " ((dnsServers env).take 3)] else [])
        ++ ["- **External IP**: " ++ externalIP env, "- **VPN Status**: " ++ detectVpn ifs sts])
    ∧ (get_network_info env).res = .ok () := by
  unfold get_network_info
  rw [hA, hS]
  simp only [liftE_ok_bind, emit_bind, emitAll_bind, ite_bind, pure_bind_pres]
  by_cases hg : defaultGateway env = "" <;>
    by_cases hd : dnsServers env = [] <;>
    simp [hg, hd, emit_out, emit_res]

/-- C7.  For every outcome of the external-IP lookup, given the
interface tables read successfully, the network collector emits the
external-IP line; and on any lookup failure (timeout, connection
failure, non-200 status) its value is the literal fallback text. -/
theorem external_ip_line (env : Env) (ifs : List (String × List IfAddr))
    (sts : List (String × IfStats))
    (hA : env.netIfAddrs = .ok ifs) (hS : env.netIfStats = .ok sts) :
    ("- **External IP**: " ++ externalIP env) ∈ (get_network_info env).out
    ∧ (get_network_info env).res = .ok ()
    ∧ (extIPFailed env.extIP = true → externalIP env = "Unable to determine") := by
  obtain ⟨hout, hres⟩ := network_out env ifs sts hA hS
  refine ⟨?_, hres, ?_⟩
  · rw [hout]; simp
  · intro hf
    unfold externalIP
    unfold extIPFailed at hf
    cases hE : env.extIP with
    | timeout => rfl
    | connectionFailure => rfl
    | response status body =>
      rw [hE] at hf
      simp only [decide_eq_true_eq] at hf
      simp [hf]

/-- Witness for C7 at the base environment, whose lookup times out. -/
theorem external_ip_line_witness :
    ("- **External IP**: " ++ externalIP baseEnv) ∈ (get_network_info baseEnv).out
    ∧ (get_network_info baseEnv).res = .ok ()
    ∧ (extIPFailed baseEnv.extIP = true → externalIP baseEnv = "Unable to determine") :=
  external_ip_line baseEnv _ _ rfl rfl

/-- The time/locale collector output and normal completion. -/
theorem time_locale_out (env : Env) :
    (get_time_locale_info env).out =
      "\n## 🕐 Time & Locale" :: ("- **Current Time**: " ++ env.fmtTimestamp env.nowTs)
        :: (timezoneLines env ++ localeLines env)
    ∧ (get_time_locale_info env).res = .ok () := by
  unfold get_time_locale_info
  simp [emitAll_out, emitAll_res]

/-- Two-digit zero-padded rendering of hour magnitudes up to 24. -/
theorem pad2_two_digits : ∀ n, n ≤ 24 → (pad2 n).data.length = 2 := by decide

/-- C9.  For every sane timezone configuration (offset within a day),
the UTC-offset line renders a flooring whole-hour division of the offset
with a constant zero minutes field, in the form UTC±HH:00 with a
two-digit hour. -/
theorem utc_offset_line (env : Env) (h : (timezoneOffset env).natAbs ≤ 86400) :
    ∃ hrs : Int, hrs = Int.fdiv (-(timezoneOffset env)) 3600
      ∧ hrs.natAbs ≤ 24
      ∧ (pad2 hrs.natAbs).data.length = 2
      ∧ ("- **UTC Offset**: UTC" ++ (if 0 ≤ hrs then "+" else "-")
           ++ pad2 hrs.natAbs ++ ":00") ∈ (get_time_locale_info env).out := by
  refine ⟨Int.fdiv (-(timezoneOffset env)) 3600, rfl, ?_, ?_, ?_⟩
  · rw [Int.fdiv_eq_ediv _ (by omega)]
    omega
  · refine pad2_two_digits _ ?_
    rw [Int.fdiv_eq_ediv _ (by omega)]
    omega
  · rw [(time_locale_out env).1]
    simp [timezoneLines]

/-- Witness for C9 at the base environment, whose zone is five and a
half hours east (offset -19800 s): the line reads UTC+05:00, the half
hour floored away. -/
theorem utc_offset_line_witness :
    ((timezoneOffset baseEnv).natAbs ≤ 86400)
    ∧ (∃ hrs : Int, hrs = Int.fdiv (-(timezoneOffset baseEnv)) 3600
        ∧ hrs.natAbs ≤ 24
        ∧ (pad2 hrs.natAbs).data.length = 2
        ∧ ("- **UTC Offset**: UTC" ++ (if 0 ≤ hrs then "+" else "-")
             ++ pad2 hrs.natAbs ++ ":00") ∈ (get_time_locale_info baseEnv).out) :=
  ⟨by decide, utc_offset_line baseEnv (by decide)⟩

/-- Floor of an integer fraction over `ℚ` is the flooring integer division. -/
theorem floor_int_div_q (a b : ℤ) (hb : 0 < b) :
    ⌊((a : ℚ) / (b : ℚ))⌋ = Int.fdiv a b := by
  have hb' : ((b.toNat : ℕ) : ℤ) = b := Int.toNat_of_nonneg hb.le
  rw [Int.fdiv_eq_ediv _ hb.le, ← hb']
  push_cast
  exact Rat.floor_intCast_div_natCast a b.toNat

/-- The floor of a `PyFloat` agrees with the floor of its rational value. -/
theorem toRat_floor (x : PyFloat) : ⌊x.toRat⌋ = x.floor :=
  floor_int_div_q x.num x.den x.dpos

/-- The fractional part of a `PyFloat` is one half exactly when its
integer remainder is half the denominator. -/
theorem fract_toRat_half_iff (x : PyFloat) :
    Int.fract x.toRat = 1 / 2 ↔ 2 * (x.num - x.den * x.floor) = x.den := by
  have hdQ : ((x.den : ℤ) : ℚ) ≠ 0 := Int.cast_ne_zero.mpr (ne_of_gt x.dpos)
  have hfr : Int.fract x.toRat
      = ((x.num - x.den * x.floor : ℤ) : ℚ) / ((x.den : ℤ) : ℚ) := by
    rw [Int.fract, toRat_floor]
    unfold PyFloat.toRat
    rw [eq_div_iff hdQ]
    push_cast
    field_simp
  rw [hfr, div_eq_iff hdQ]
  constructor
  · intro h
    have h2 : ((2 * (x.num - x.den * x.floor) : ℤ) : ℚ) = ((x.den : ℤ) : ℚ) := by
      push_cast at h ⊢
      linarith
    exact_mod_cast h2
  · intro h
    have h2 : ((2 * (x.num - x.den * x.floor) : ℤ) : ℚ) = ((x.den : ℤ) : ℚ) := by
      exact_mod_cast h
    push_cast at h2 ⊢
    linarith

/-- Adding one half to a `PyFloat` and flooring, in integer arithmetic. -/
theorem floor_toRat_add_half (x : PyFloat) :
    ⌊x.toRat + 1 / 2⌋ = Int.fdiv (2 * x.num + x.den) (2 * x.den) := by
  have hd : ((x.den : ℤ) : ℚ) ≠ 0 := Int.cast_ne_zero.mpr (ne_of_gt x.dpos)
  have h2d : ((2 * x.den : ℤ) : ℚ) ≠ 0 :=
    Int.cast_ne_zero.mpr (ne_of_gt (by linarith [x.dpos]))
  have hrw : x.toRat + 1 / 2 = ((2 * x.num + x.den : ℤ) : ℚ) / ((2 * x.den : ℤ) : ℚ) := by
    unfold PyFloat.toRat
    rw [eq_div_iff h2d]
    push_cast
    field_simp
    ring
  rw [hrw]
  exact floor_int_div_q _ _ (by linarith [x.dpos])

/-- The integer rounding on a `PyFloat` agrees with round half to even
on its rational value. -/
theorem roundHE_eq_rndHE (x : PyFloat) : x.roundHE = rndHE x.toRat := by
  unfold PyFloat.roundHE rndHE
  simp only [toRat_floor, floor_toRat_add_half]
  exact if_congr (fract_toRat_half_iff x).symm rfl rfl

/-- Complement identity for round half to even: tenths of a percentage
and tenths of its complement to one hundred always total one thousand. -/
theorem rndHE_compl (q : ℚ) : rndHE q + rndHE (1000 - q) = 1000 := by
  have hq : (↑⌊q⌋ : ℚ) + Int.fract q = q := Int.floor_add_fract q
  have hf0 : 0 ≤ Int.fract q := Int.fract_nonneg q
  have hf1 : Int.fract q < 1 := Int.fract_lt_one q
  have hfloorA : ⌊q + 1 / 2⌋ = ⌊q⌋ + ⌊Int.fract q + 1 / 2⌋ := by
    rw [show q + 1 / 2 = (↑⌊q⌋ : ℚ) + (Int.fract q + 1 / 2) by linarith, Int.floor_int_add]
  have hfloorB : ⌊(1000 : ℚ) - q + 1 / 2⌋ = (999 - ⌊q⌋) + ⌊3 / 2 - Int.fract q⌋ := by
    rw [show (1000 : ℚ) - q + 1 / 2 = ((999 - ⌊q⌋ : ℤ) : ℚ) + (3 / 2 - Int.fract q) by
          push_cast; linarith,
        Int.floor_int_add]
  by_cases htie : Int.fract q = 1 / 2
  · have h1000 : (1000 : ℚ) - q = ((999 - ⌊q⌋ : ℤ) : ℚ) + (1 - Int.fract q) := by
      push_cast; linarith
    have hfr : Int.fract ((1000 : ℚ) - q) = 1 / 2 := by
      rw [h1000, Int.fract_int_add,
          Int.fract_eq_self.mpr ⟨by rw [htie]; norm_num, by rw [htie]; norm_num⟩, htie]
      norm_num
    have hfl : ⌊(1000 : ℚ) - q⌋ = 999 - ⌊q⌋ := by
      rw [h1000, Int.floor_int_add,
          show ⌊(1 : ℚ) - Int.fract q⌋ = 0 from
            Int.floor_eq_iff.mpr ⟨by rw [htie]; norm_num, by rw [htie]; norm_num⟩]
      ring
    unfold rndHE
    rw [if_pos htie, if_pos hfr, hfl]
    split_ifs <;> omega
  · have hfrB : Int.fract ((1000 : ℚ) - q) ≠ 1 / 2 := by
      by_cases hz : Int.fract q = 0
      · rw [show (1000 : ℚ) - q = ((1000 - ⌊q⌋ : ℤ) : ℚ) by push_cast; linarith [hz],
            Int.fract_intCast]
        norm_num
      · have hpos : 0 < Int.fract q := lt_of_le_of_ne hf0 (Ne.symm hz)
        rw [show (1000 : ℚ) - q = ((999 - ⌊q⌋ : ℤ) : ℚ) + (1 - Int.fract q) by
              push_cast; linarith,
            Int.fract_int_add,
            Int.fract_eq_self.mpr ⟨by linarith, by linarith⟩]
        intro hc
        exact htie (by linarith)
    unfold rndHE
    rw [if_neg htie, if_neg hfrB, hfloorA, hfloorB]
    by_cases hlt : Int.fract q < 1 / 2
    · rw [show ⌊Int.fract q + 1 / 2⌋ = 0 from
            Int.floor_eq_iff.mpr ⟨by push_cast; linarith, by push_cast; linarith⟩,
          show ⌊3 / 2 - Int.fract q⌋ = 1 from
            Int.floor_eq_iff.mpr ⟨by push_cast; linarith, by push_cast; linarith⟩]
      ring
    · have hgt : 1 / 2 < Int.fract q :=
        lt_of_le_of_ne (not_lt.mp hlt) (Ne.symm htie)
      rw [show ⌊Int.fract q + 1 / 2⌋ = 1 from
            Int.floor_eq_iff.mpr ⟨by push_cast; linarith, by push_cast; linarith⟩,
          show ⌊3 / 2 - Int.fract q⌋ = 0 from
            Int.floor_eq_iff.mpr ⟨by push_cast; linarith, by push_cast; linarith⟩]
      ring

theorem toRat_mul (x y : PyFloat) : (x.mul y).toRat = x.toRat * y.toRat := by
  unfold PyFloat.mul PyFloat.toRat
  push_cast
  rw [div_mul_div_comm]

theorem toRat_sub (x y : PyFloat) : (x.sub y).toRat = x.toRat - y.toRat := by
  have hx : ((x.den : ℤ) : ℚ) ≠ 0 := Int.cast_ne_zero.mpr (ne_of_gt x.dpos)
  have hy : ((y.den : ℤ) : ℚ) ≠ 0 := Int.cast_ne_zero.mpr (ne_of_gt y.dpos)
  unfold PyFloat.sub PyFloat.toRat
  field_simp
  ring

theorem toRat_ofNat (n : Nat) : (PyFloat.ofNat n).toRat = (n : ℚ) := by
  unfold PyFloat.ofNat PyFloat.toRat
  norm_num

/-- C4.  For every partition whose used bytes are total minus free, the
rendered used and free percentages (one-decimal roundings of the exact
values, as the `:.1f` conversion produces on these rationals) sum to
exactly one hundred percent; and on a 100 GiB partition with 25 GiB
free the storage collector emits the exact free and used lines. -/
theorem storage_percent_roundtrip (u : DiskUsage) (_hnz : u.total ≠ 0)
    (_hused : u.used = u.total - u.free) :
    (PyFloat.roundHE
        (((PyFloat.ofNat 100).sub ((intDivF u.used u.total).mul (PyFloat.ofNat 100))).mul
          (PyFloat.ofNat 10))
      + PyFloat.roundHE
        (((intDivF u.used u.total).mul (PyFloat.ofNat 100)).mul (PyFloat.ofNat 10)) = 1000)
    ∧ (get_storage_info baseEnv).out
        = ["\n## 💾 Storage", "\n### /dev/sda1 (/)", "- **Type**: Fixed (ext4)",
           "- **Total**: 100.0 GB", "- **Free**: 25.0 GB (25.0% free)", "- **Used**: 75.0%"] := by
  constructor
  · rw [roundHE_eq_rndHE, roundHE_eq_rndHE, toRat_mul, toRat_mul, toRat_sub, toRat_ofNat,
        toRat_ofNat]
    have hring : (((100 : ℕ) : ℚ) - ((intDivF u.used u.total).mul (PyFloat.ofNat 100)).toRat)
          * ((10 : ℕ) : ℚ)
        = 1000 - ((intDivF u.used u.total).mul (PyFloat.ofNat 100)).toRat * ((10 : ℕ) : ℚ) := by
      push_cast
      ring
    rw [hring]
    have hc := rndHE_compl (((intDivF u.used u.total).mul (PyFloat.ofNat 100)).toRat * ((10 : ℕ) : ℚ))
    linarith [hc]
  · decide

/-- Witness for C4 at the concrete 100 GiB / 25 GiB usage record. -/
theorem storage_percent_roundtrip_witness :
    ((107374182400 : Int) ≠ 0)
    ∧ ((80530636800 : Int) = 107374182400 - 26843545600)
    ∧ (PyFloat.roundHE
        (((PyFloat.ofNat 100).sub
            ((intDivF (80530636800 : Int) (107374182400 : Int)).mul (PyFloat.ofNat 100))).mul
          (PyFloat.ofNat 10))
      + PyFloat.roundHE
        (((intDivF (80530636800 : Int) (107374182400 : Int)).mul (PyFloat.ofNat 100)).mul
          (PyFloat.ofNat 10)) = 1000) :=
  ⟨by decide, by decide,
   (storage_percent_roundtrip ⟨107374182400, 80530636800, 26843545600⟩
      (by decide) (by decide)).1⟩

/-- A Darwin environment whose graphics profiler reports four GPUs. -/
def gpuEnv4 : Env :=
  { baseEnv with
    platformSystem := "Darwin"
    cmd := fun c _ =>
      if c = ["system_profiler", "SPDisplaysDataType"] then
        .success "Chipset Model: GPU0\nChipset Model: GPU1\nChipset Model: GPU2\nChipset Model: GPU3\n"
      else .fileNotFoundError }

/-- C8 counterexample.  On Darwin the GPU sub-collector renders one
entry per chipset line with no cap: four reported GPUs yield four
entries, refuting the at-most-three bound. -/
theorem gpu_cap_counterexample :
    ((gpuInfo gpuEnv4).countP (fun l => pyStarts l "- **GPU**: ")) = 4
    ∧ ¬ ((gpuInfo gpuEnv4).countP (fun l => pyStarts l "- **GPU**: ") ≤ 3) := by
  decide

/-- C8 amended.  On Linux the GPU sub-collector emits at most three GPU
entries, regardless of how many devices the enumeration lists; the
Darwin branch is uncapped. -/
theorem gpuLinuxEntries_cap (out : String) :
    (gpuLinuxEntries out).countP (fun l => pyStarts l "- **GPU**: ") ≤ 3 := by
  unfold gpuLinuxEntries
  by_cases hne : out ≠ ""
  · rw [if_pos hne]
    set gpus := (pySplitCh out '\n').filter (fun l => pyIn "VGA" l || pyIn "3D" l) with hg
    by_cases hg0 : gpus ≠ []
    · rw [if_pos hg0, List.countP_cons]
      have hhd : pyStarts "\n### Graphics Cards" "- **GPU**: " = false := by decide
      rw [hhd]
      simp only [Bool.false_eq_true, if_false, add_zero]
      calc ((gpus.take 3).filterMap (fun g =>
              let parts := pySplitCh g '"'
              if 6 ≤ parts.length then some ("- **GPU**: " ++ parts.getD 5 "") else none)).countP
                (fun l => pyStarts l "- **GPU**: ")
          ≤ ((gpus.take 3).filterMap (fun g =>
              let parts := pySplitCh g '"'
              if 6 ≤ parts.length then some ("- **GPU**: " ++ parts.getD 5 "") else none)).length :=
            List.countP_le_length _
        _ ≤ (gpus.take 3).length := List.length_filterMap_le _ _
        _ ≤ 3 := by rw [List.length_take]; exact min_le_left _ _
    · rw [if_neg hg0]
      decide
  · rw [if_neg hne]
    decide

theorem gpu_cap_linux (env : Env) (h : env.platformSystem = "Linux") :
    (gpuInfo env).countP (fun l => pyStarts l "- **GPU**: ") ≤ 3 := by
  unfold gpuInfo
  rw [h]
  simp only [reduceIte, String.reduceEq]
  cases hcmd : safe_subprocess env ["lspci", "-mm"] 5 with
  | error e => exact le_of_eq_of_le (List.countP_nil _) (by omega)
  | ok out => exact gpuLinuxEntries_cap out

/-- Witness for the amended C8 at the Linux base environment. -/
theorem gpu_cap_linux_witness :
    baseEnv.platformSystem = "Linux"
    ∧ (gpuInfo baseEnv).countP (fun l => pyStarts l "- **GPU**: ") ≤ 3 :=
  ⟨rfl, gpu_cap_linux baseEnv rfl⟩

theorem chStarts_append_same (c p s : List Char) :
    chStarts (c ++ p) (c ++ s) = chStarts p s := by
  induction c with
  | nil => rfl
  | cons x xs ih => simp [chStarts, ih]

/-- A shared literal prefix cancels in a prefix test. -/
theorem pyStarts_append_cancel (pre s p : String) :
    pyStarts (pre ++ s) (pre ++ p) = pyStarts s p := by
  unfold pyStarts
  rw [String.data_append, String.data_append]
  exact chStarts_append_same pre.data p.data s.data

/-- C10 counterexample.  A link-local IPv6 nameserver reaches the
output through the DNS line: an address beginning with fe80 appears in
the network collector output. -/
theorem fe80_in_output_counterexample :
    ("- **DNS Servers**: fe80::1%eth0") ∈ (get_network_info fe80DnsEnv).out
    ∧ pyStarts "fe80::1%eth0" "fe80" = true := by
  decide

/-- C10 amended.  A per-interface section is only ever emitted for an
interface that is neither loopback- nor tunnel-named and whose
statistics report up; no per-interface line renders a link-local
(fe80-prefixed) IPv6 address; and the VPN line is computed by the
heuristic over the full unfiltered interface table.  (Link-local
addresses can still reach the output elsewhere, e.g. in the DNS line.) -/
theorem network_filter_invariants (env : Env) (ifs : List (String × List IfAddr))
    (sts : List (String × IfStats))
    (hA : env.netIfAddrs = .ok ifs) (hS : env.netIfStats = .ok sts) :
    (∀ ia : String × List IfAddr, interfaceBlock sts ia ≠ [] →
        pyStarts ia.1 "lo" = false ∧ pyStarts ia.1 "utun" = false
        ∧ ∃ st, sts.find? (fun s => s.1 = ia.1) = some st ∧ st.2.isup = true)
    ∧ (∀ l ∈ interfaceLines ifs sts, pyStarts l "- **IPv6**: fe80" = false)
    ∧ ("- **VPN Status**: " ++ detectVpn ifs sts) ∈ (get_network_info env).out := by
  refine ⟨?_, ?_, ?_⟩
  · intro ia hne
    unfold interfaceBlock at hne
    cases hfil : (pyStarts ia.1 "lo" || pyStarts ia.1 "utun") with
    | true => rw [hfil] at hne; simp at hne
    | false =>
      rw [hfil] at hne
      simp only [Bool.false_eq_true, if_false] at hne
      rcases Bool.or_eq_false_iff.mp hfil with ⟨h1, h2⟩
      refine ⟨h1, h2, ?_⟩
      cases hfind : sts.find? (fun s => s.1 = ia.1) with
      | none => rw [hfind] at hne; simp at hne
      | some st =>
        rw [hfind] at hne
        dsimp only at hne
        cases hup : st.2.isup with
        | true => exact ⟨st, rfl, hup⟩
        | false => rw [hup] at hne; simp at hne
  · intro l hl
    unfold interfaceLines at hl
    rcases List.mem_flatMap.mp hl with ⟨ia, _, hbl⟩
    unfold interfaceBlock at hbl
    cases hfil : (pyStarts ia.1 "lo" || pyStarts ia.1 "utun") with
    | true => rw [hfil] at hbl; simp at hbl
    | false =>
      rw [hfil] at hbl
      simp only [Bool.false_eq_true, if_false] at hbl
      cases hfind : sts.find? (fun s => s.1 = ia.1) with
      | none => rw [hfind] at hbl; simp at hbl
      | some st =>
        rw [hfind] at hbl
        dsimp only at hbl
        cases hup : st.2.isup with
        | false => rw [hup] at hbl; simp at hbl
        | true =>
          rw [hup] at hbl
          simp only [if_true] at hbl
          rcases List.mem_cons.mp hbl with h | hbl2
          · subst h; rfl
          rcases List.mem_cons.mp hbl2 with h | hbl3
          · subst h; rfl
          unfold ifAddrLines at hbl3
          rcases List.mem_flatMap.mp hbl3 with ⟨addr, _, hline⟩
          by_cases h4 : addr.family = "AF_INET"
          · rw [if_pos h4] at hline
            rcases List.mem_cons.mp hline with h | hrest
            · subst h; rfl
            · cases hmask : addr.netmask with
              | none => rw [hmask] at hrest; simp at hrest
              | some m =>
                rw [hmask] at hrest
                dsimp only at hrest
                by_cases hm : m ≠ ""
                · rw [if_pos hm] at hrest
                  rcases List.mem_singleton.mp hrest with h
                  subst h; rfl
                · rw [if_neg hm] at hrest; simp at hrest
          · rw [if_neg h4] at hline
            by_cases h6 : addr.family = "AF_INET6"
            · rw [if_pos h6] at hline
              cases hfe : pyStarts addr.address "fe80" with
              | true => rw [hfe] at hline; simp at hline
              | false =>
                rw [hfe] at hline
                simp only [Bool.not_true, Bool.not_false, if_true] at hline
                rcases List.mem_singleton.mp hline with h
                subst h
                have hsplit : ("- **IPv6**: fe80" : String) = "- **IPv6**: " ++ "fe80" := rfl
                rw [hsplit, pyStarts_append_cancel]
                exact hfe
            · rw [if_neg h6] at hline; simp at hline
  · rw [(network_out env ifs sts hA hS).1]
    simp

/-- Witness for the amended C10 at the base environment (whose table
holds a loopback, an up ethernet interface with a link-local address,
and an up tunnel). -/
theorem network_filter_invariants_witness :
    baseEnv.netIfAddrs = .ok [("lo", [⟨"AF_INET", "127.0.0.1", some "255.0.0.0"⟩]),
      ("eth0", [⟨"AF_INET", "10.0.0.5", some "255.255.255.0"⟩,
                ⟨"AF_INET6", "fe80::1", none⟩,
                ⟨"AF_INET6", "2001:db8::1", none⟩]),
      ("utun0", [⟨"AF_INET", "198.51.100.2", none⟩])]
    ∧ (∀ l ∈ interfaceLines [("lo", [⟨"AF_INET", "127.0.0.1", some "255.0.0.0"⟩]),
          ("eth0", [⟨"AF_INET", "10.0.0.5", some "255.255.255.0"⟩,
                    ⟨"AF_INET6", "fe80::1", none⟩,
                    ⟨"AF_INET6", "2001:db8::1", none⟩]),
          ("utun0", [⟨"AF_INET", "198.51.100.2", none⟩])]
          [("lo", ⟨true⟩), ("eth0", ⟨true⟩), ("utun0", ⟨true⟩)],
        pyStarts l "- **IPv6**: fe80" = false) :=
  ⟨rfl, (network_filter_invariants baseEnv _ _ rfl rfl).2.1⟩

theorem blt_iff (x y : PyFloat) : x.blt y = true ↔ x.toRat < y.toRat := by
  have hx : (0 : ℚ) < ((x.den : ℤ) : ℚ) := by exact_mod_cast x.dpos
  have hy : (0 : ℚ) < ((y.den : ℤ) : ℚ) := by exact_mod_cast y.dpos
  unfold PyFloat.blt PyFloat.toRat
  simp only [decide_eq_true_eq]
  rw [div_lt_div_iff₀ hx hy]
  exact ⟨fun h => by exact_mod_cast h, fun h => by exact_mod_cast h⟩

theorem ble_iff (x y : PyFloat) : x.ble y = true ↔ x.toRat ≤ y.toRat := by
  have hx : (0 : ℚ) < ((x.den : ℤ) : ℚ) := by exact_mod_cast x.dpos
  have hy : (0 : ℚ) < ((y.den : ℤ) : ℚ) := by exact_mod_cast y.dpos
  unfold PyFloat.ble PyFloat.toRat
  simp only [decide_eq_true_eq]
  rw [div_le_div_iff₀ hx hy]
  exact ⟨fun h => by exact_mod_cast h, fun h => by exact_mod_cast h⟩

theorem beqF_iff (x y : PyFloat) : x.beqF y = true ↔ x.toRat = y.toRat := by
  have hx : ((x.den : ℤ) : ℚ) ≠ 0 := ne_of_gt (by exact_mod_cast x.dpos)
  have hy : ((y.den : ℤ) : ℚ) ≠ 0 := ne_of_gt (by exact_mod_cast y.dpos)
  unfold PyFloat.beqF PyFloat.toRat
  simp only [decide_eq_true_eq]
  rw [div_eq_div_iff hx hy]
  exact ⟨fun h => by exact_mod_cast h, fun h => by exact_mod_cast h⟩

/-- The descending composite order is total. -/
theorem procKeyGE_total (a b : ProcEntry) :
    procKeyGE a b = true ∨ procKeyGE b a = true := by
  unfold procKeyGE
  simp only [Bool.or_eq_true, Bool.and_eq_true, blt_iff, ble_iff, beqF_iff]
  rcases lt_trichotomy a.cpu.toRat b.cpu.toRat with h | h | h
  · exact Or.inr (Or.inl h)
  · rcases le_total a.mem.toRat b.mem.toRat with hm | hm
    · exact Or.inr (Or.inr ⟨h, hm⟩)
    · exact Or.inl (Or.inr ⟨h.symm, hm⟩)
  · exact Or.inl (Or.inl h)

/-- The descending composite order is transitive. -/
theorem procKeyGE_trans (a b c : ProcEntry) (h1 : procKeyGE a b = true)
    (h2 : procKeyGE b c = true) : procKeyGE a c = true := by
  unfold procKeyGE at h1 h2 ⊢
  simp only [Bool.or_eq_true, Bool.and_eq_true, blt_iff, ble_iff, beqF_iff] at h1 h2 ⊢
  rcases h1 with h1 | ⟨h1e, h1m⟩ <;> rcases h2 with h2 | ⟨h2e, h2m⟩
  · exact Or.inl (lt_trans h2 h1)
  · exact Or.inl (by rw [h2e]; exact h1)
  · exact Or.inl (by rw [← h1e]; exact h2)
  · exact Or.inr ⟨h2e.trans h1e, le_trans h2m h1m⟩

theorem mem_insSorted (le : α → α → Bool) (a x : α) (l : List α) :
    x ∈ insSorted le a l ↔ x = a ∨ x ∈ l := by
  induction l with
  | nil => simp [insSorted]
  | cons b bs ih =>
    unfold insSorted
    cases hle : le a b with
    | true =>
      simp only [if_true]
      constructor
      · intro h
        rcases List.mem_cons.mp h with h | h
        · exact Or.inl h
        · exact Or.inr h
      · intro h
        rcases h with h | h
        · exact List.mem_cons.mpr (Or.inl h)
        · exact List.mem_cons.mpr (Or.inr h)
    | false =>
      simp only [Bool.false_eq_true, if_false]
      rw [List.mem_cons, ih, List.mem_cons]
      tauto

/-- Inserting into a list sorted by a total transitive order keeps it sorted. -/
theorem insSorted_pairwise (le : α → α → Bool)
    (htrans : ∀ a b c, le a b = true → le b c = true → le a c = true)
    (htot : ∀ a b, le a b = true ∨ le b a = true)
    (a : α) (l : List α) (hl : l.Pairwise (fun x y => le x y = true)) :
    (insSorted le a l).Pairwise (fun x y => le x y = true) := by
  induction l with
  | nil => simp [insSorted]
  | cons b bs ih =>
    rw [List.pairwise_cons] at hl
    unfold insSorted
    cases hle : le a b with
    | true =>
      simp only [if_true]
      rw [List.pairwise_cons]
      refine ⟨?_, List.pairwise_cons.mpr hl⟩
      intro x hx
      rcases List.mem_cons.mp hx with h | h
      · rw [h]; exact hle
      · exact htrans a b x hle (hl.1 x h)
    | false =>
      simp only [Bool.false_eq_true, if_false]
      rw [List.pairwise_cons]
      refine ⟨?_, ih hl.2⟩
      intro x hx
      rcases (mem_insSorted le a x bs).mp hx with h | h
      · rw [h]
        rcases htot a b with h2 | h2
        · rw [h2] at hle; cases hle
        · exact h2
      · exact hl.1 x h

/-- The stable insertion sort produces a sorted list. -/
theorem insSort_pairwise (le : α → α → Bool)
    (htrans : ∀ a b c, le a b = true → le b c = true → le a c = true)
    (htot : ∀ a b, le a b = true ∨ le b a = true)
    (l : List α) : (insSort le l).Pairwise (fun x y => le x y = true) := by
  induction l with
  | nil => simp [insSort]
  | cons a as ih => exact insSorted_pairwise le htrans htot a (insSort le as) ih

theorem insSorted_perm (le : α → α → Bool) (a : α) (l : List α) :
    (insSorted le a l).Perm (a :: l) := by
  induction l with
  | nil => simp [insSorted]
  | cons b bs ih =>
    unfold insSorted
    cases hle : le a b with
    | true => simp
    | false =>
      simp only [Bool.false_eq_true, if_false]
      exact List.Perm.trans (List.Perm.cons b ih) (List.Perm.swap a b bs)

theorem insSort_perm (le : α → α → Bool) (l : List α) : (insSort le l).Perm l := by
  induction l with
  | nil => simp [insSort]
  | cons a as ih =>
    exact (insSorted_perm le a (insSort le as)).trans (List.Perm.cons a ih)

/-- The display selection is a sublist of the sorted process list. -/
theorem procSelect_sublist : ∀ (l : List ProcEntry) (c : Nat), (procSelect l c).Sublist l := by
  intro l
  induction l with
  | nil => intro c; simp [procSelect]
  | cons p ps ih =>
    intro c
    unfold procSelect
    by_cases h20 : 20 ≤ c
    · rw [if_pos h20]; exact List.nil_sublist _
    · rw [if_neg h20]
      by_cases hc : procRowCond p = true
      · rw [if_pos hc]; exact List.Sublist.cons₂ p (ih (c + 1))
      · rw [if_neg hc]; exact List.Sublist.cons p (ih c)

/-- The display loop renders at most twenty minus the starting count. -/
theorem procSelect_length : ∀ (l : List ProcEntry) (c : Nat),
    (procSelect l c).length ≤ 20 - c := by
  intro l
  induction l with
  | nil => intro c; simp [procSelect]
  | cons p ps ih =>
    intro c
    unfold procSelect
    by_cases h20 : 20 ≤ c
    · rw [if_pos h20]; simp
    · rw [if_neg h20]
      by_cases hc : procRowCond p = true
      · rw [if_pos hc]
        have := ih (c + 1)
        simp only [List.length_cons]
        omega
      · rw [if_neg hc]
        exact ih c

/-- Every selected process qualifies for a row. -/
theorem procSelect_cond : ∀ (l : List ProcEntry) (c : Nat) (p : ProcEntry),
    p ∈ procSelect l c → procRowCond p = true := by
  intro l
  induction l with
  | nil => intro c p h; simp [procSelect] at h
  | cons q qs ih =>
    intro c p h
    unfold procSelect at h
    by_cases h20 : 20 ≤ c
    · rw [if_pos h20] at h; simp at h
    · rw [if_neg h20] at h
      by_cases hc : procRowCond q = true
      · rw [if_pos hc] at h
        rcases List.mem_cons.mp h with h | h
        · rw [h]; exact hc
        · exact ih (c + 1) p h
      · rw [if_neg hc] at h
        exact ih c p h

/-- The rendered rows are exactly the selected processes, rendered. -/
theorem procRows_eq : ∀ (l : List ProcEntry) (c : Nat),
    procRows l c = (procSelect l c).map renderProcRow := by
  intro l
  induction l with
  | nil => intro c; simp [procRows, procSelect]
  | cons p ps ih =>
    intro c
    unfold procRows procSelect
    by_cases h20 : 20 ≤ c
    · rw [if_pos h20, if_pos h20]; rfl
    · rw [if_neg h20, if_neg h20]
      by_cases hc : procRowCond p = true
      · rw [if_pos hc, if_pos hc, List.map_cons, ih (c + 1)]
      · rw [if_neg hc, if_neg hc, ih c]

/-- The process collector output, given a successful process iteration. -/
theorem processes_out (env : Env) (items : List ProcIterItem)
    (hit : env.processIter = .ok items) :
    (get_running_processes env).out
      = "## ⚙️ Running Processes" :: "\n### Top Processes (by CPU/Memory usage)"
        :: "| PID | Name | CPU% | Memory% | Path |" :: "|-----|------|------|---------|------|"
        :: (procRows (procSort (procFilter items)) 0
            ++ ["\n**Summary**: " ++ Nat.repr (procFilter items).length ++ " total processes, "
                ++ Nat.repr ((procFilter items).countP (fun p => (PyFloat.ofNat 0).blt p.cpu))
                ++ " active"]) := by
  have hb : (processesBody env).out
      = "\n### Top Processes (by CPU/Memory usage)"
        :: "| PID | Name | CPU% | Memory% | Path |" :: "|-----|------|------|---------|------|"
        :: (procRows (procSort (procFilter items)) 0
            ++ ["\n**Summary**: " ++ Nat.repr (procFilter items).length ++ " total processes, "
                ++ Nat.repr ((procFilter items).countP (fun p => (PyFloat.ofNat 0).blt p.cpu))
                ++ " active"])
      ∧ (processesBody env).res = .ok () := by
    unfold processesBody
    rw [hit]
    simp [emit_out, emit_res, emitAll_out, emitAll_res]
  unfold get_running_processes
  simp only [emit_bind]
  rw [pytry_of_ok _ hb.2, hb.1]

/-- C5.  For every process snapshot with a successful iteration, the
process table is the rendering of the display selection over the stable
descending (CPU, memory) sort: at most twenty rows, keys descending,
and a process appears only if its CPU exceeds 0.1 or its memory exceeds
0.5 or its (truncated, lower-cased) name is on the core allow-list. -/
theorem process_table_spec (env : Env) (items : List ProcIterItem)
    (hit : env.processIter = .ok items) :
    (get_running_processes env).out
      = "## ⚙️ Running Processes" :: "\n### Top Processes (by CPU/Memory usage)"
        :: "| PID | Name | CPU% | Memory% | Path |" :: "|-----|------|------|---------|------|"
        :: (procRows (procSort (procFilter items)) 0
            ++ ["\n**Summary**: " ++ Nat.repr (procFilter items).length ++ " total processes, "
                ++ Nat.repr ((procFilter items).countP (fun p => (PyFloat.ofNat 0).blt p.cpu))
                ++ " active"])
    ∧ procRows (procSort (procFilter items)) 0
        = (procSelect (procSort (procFilter items)) 0).map renderProcRow
    ∧ (procRows (procSort (procFilter items)) 0).length ≤ 20
    ∧ (procSelect (procSort (procFilter items)) 0).Pairwise (fun a b => procKeyGE a b = true)
    ∧ (∀ p ∈ procSelect (procSort (procFilter items)) 0, procRowCond p = true) := by
  refine ⟨processes_out env items hit, procRows_eq _ 0, ?_, ?_, ?_⟩
  · rw [procRows_eq _ 0, List.length_map]
    have := procSelect_length (procSort (procFilter items)) 0
    omega
  · exact List.Pairwise.sublist (procSelect_sublist _ 0)
      (insSort_pairwise procKeyGE procKeyGE_trans procKeyGE_total _)
  · exact fun p hp => procSelect_cond _ 0 p hp

theorem digitChar_isDigit : ∀ m, m < 10 → (Nat.digitChar m).isDigit = true := by decide

theorem digitChar_val : ∀ m, m < 10 → (Nat.digitChar m).toNat - 48 = m := by decide

theorem valFrom_append (l1 l2 : List Char) : ∀ a, valFrom a (l1 ++ l2) = valFrom (valFrom a l1) l2 := by
  induction l1 with
  | nil => intro a; rfl
  | cons c cs ih =>
    intro a
    simp only [List.cons_append]
    show valFrom (10 * a + (c.toNat - 48)) (cs ++ l2) = _
    rw [ih]
    rfl

theorem toDigitsCore_shift : ∀ (fuel n : Nat) (acc : List Char),
    Nat.toDigitsCore 10 fuel n acc = Nat.toDigitsCore 10 fuel n [] ++ acc := by
  intro fuel
  induction fuel with
  | zero => intro n acc; rfl
  | succ f ih =>
    intro n acc
    unfold Nat.toDigitsCore
    dsimp only
    by_cases h : n / 10 = 0
    · simp only [h, if_true, List.singleton_append]
    · simp only [h, if_false]
      rw [ih (n / 10) (Nat.digitChar (n % 10) :: acc), ih (n / 10) [Nat.digitChar (n % 10)]]
      simp

theorem toDigitsCore_digits : ∀ (fuel n : Nat) (acc : List Char),
    (∀ c ∈ acc, c.isDigit = true) → ∀ c ∈ Nat.toDigitsCore 10 fuel n acc, c.isDigit = true := by
  intro fuel
  induction fuel with
  | zero => intro n acc hacc; exact hacc
  | succ f ih =>
    intro n acc hacc c hc
    unfold Nat.toDigitsCore at hc
    dsimp only at hc
    by_cases h : n / 10 = 0
    · rw [if_pos h] at hc
      rcases List.mem_cons.mp hc with h1 | h1
      · rw [h1]; exact digitChar_isDigit _ (Nat.mod_lt _ (by norm_num))
      · exact hacc c h1
    · rw [if_neg h] at hc
      refine ih (n / 10) _ ?_ c hc
      intro d hd
      rcases List.mem_cons.mp hd with h1 | h1
      · rw [h1]; exact digitChar_isDigit _ (Nat.mod_lt _ (by norm_num))
      · exact hacc d h1

theorem valFrom_toDigitsCore : ∀ (n fuel : Nat), n < fuel →
    valFrom 0 (Nat.toDigitsCore 10 fuel n []) = n := by
  intro n
  induction n using Nat.strong_induction_on with
  | _ n ih =>
    intro fuel hf
    cases fuel with
    | zero => omega
    | succ f =>
      unfold Nat.toDigitsCore
      dsimp only
      by_cases h : n / 10 = 0
      · rw [if_pos h]
        have hv : valFrom 0 [Nat.digitChar (n % 10)]
            = 10 * 0 + ((Nat.digitChar (n % 10)).toNat - 48) := rfl
        rw [hv, digitChar_val (n % 10) (Nat.mod_lt _ (by norm_num))]
        omega
      · rw [if_neg h]
        rw [toDigitsCore_shift, valFrom_append]
        have h10 : n / 10 < n := Nat.div_lt_self (by omega) (by norm_num)
        have hlt : n / 10 < f := by omega
        rw [ih (n / 10) h10 f hlt]
        have hv : valFrom (n / 10) [Nat.digitChar (n % 10)]
            = 10 * (n / 10) + ((Nat.digitChar (n % 10)).toNat - 48) := rfl
        rw [hv, digitChar_val (n % 10) (Nat.mod_lt _ (by norm_num))]
        omega

/-- Reading back the decimal rendering of a natural recovers it. -/
theorem natRepr_val (n : Nat) : valFrom 0 (Nat.repr n).data = n := by
  have hr : (Nat.repr n).data = Nat.toDigitsCore 10 (n + 1) n [] := rfl
  rw [hr]
  exact valFrom_toDigitsCore n (n + 1) (by omega)

/-- Decimal renderings of naturals are injective. -/
theorem natRepr_inj {m n : Nat} (h : Nat.repr m = Nat.repr n) : m = n := by
  have h2 := congrArg (fun s => valFrom 0 s.data) h
  simpa [natRepr_val] using h2

/-- A decimal rendering never contains the colon separator. -/
theorem natRepr_no_colon (n : Nat) : ':' ∉ (Nat.repr n).data := by
  intro hc
  have hr : (Nat.repr n).data = Nat.toDigitsCore 10 (n + 1) n [] := rfl
  rw [hr] at hc
  have hd := toDigitsCore_digits (n + 1) n [] (by intro c hcm; simp at hcm) ':' hc
  exact absurd hd (by decide)

/-- Splitting at a separator absent from both suffixes is unambiguous. -/
theorem append_sep_inj : ∀ (xs as ys bs : List Char), ':' ∉ ys → ':' ∉ bs →
    xs ++ ':' :: ys = as ++ ':' :: bs → xs = as ∧ ys = bs := by
  intro xs
  induction xs with
  | nil =>
    intro as ys bs hy hb h
    cases as with
    | nil =>
      simp only [List.nil_append] at h
      exact ⟨rfl, (List.cons.injEq _ _ _ _).mp h |>.2⟩
    | cons a as2 =>
      simp only [List.nil_append, List.cons_append] at h
      obtain ⟨h1, h2⟩ := (List.cons.injEq _ _ _ _).mp h
      exfalso
      exact hy (h2 ▸ List.mem_append_right as2 (List.mem_cons_self ':' bs))
  | cons x xs2 ih =>
    intro as ys bs hy hb h
    cases as with
    | nil =>
      simp only [List.cons_append, List.nil_append] at h
      obtain ⟨h1, h2⟩ := (List.cons.injEq _ _ _ _).mp h
      exfalso
      exact hb (h2.symm ▸ List.mem_append_right xs2 (List.mem_cons_self ':' ys))
    | cons a as2 =>
      simp only [List.cons_append] at h
      obtain ⟨h1, h2⟩ := (List.cons.injEq _ _ _ _).mp h
      obtain ⟨hxs, hys⟩ := ih as2 ys bs hy hb h2
      exact ⟨by rw [h1, hxs], hys⟩

/-- Strings with equal character data are equal. -/
theorem stringDataInj {s t : String} (h : s.data = t.data) : s = t := by
  cases s
  cases t
  exact congrArg String.mk h

/-- The colon-joined deduplication key determines the address and port. -/
theorem mkPortKey_inj {ip1 ip2 : String} {p1 p2 : Nat}
    (h : mkPortKey ip1 p1 = mkPortKey ip2 p2) : ip1 = ip2 ∧ p1 = p2 := by
  unfold mkPortKey at h
  have hd := congrArg String.data h
  simp only [String.data_append] at hd
  have hd2 : ip1.data ++ ':' :: (Nat.repr p1).data = ip2.data ++ ':' :: (Nat.repr p2).data := by
    simpa [List.append_assoc] using hd
  obtain ⟨hip, hrep⟩ :=
    append_sep_inj _ _ _ _ (natRepr_no_colon p1) (natRepr_no_colon p2) hd2
  exact ⟨stringDataInj hip, natRepr_inj (stringDataInj hrep)⟩

theorem portLe_total : ∀ a b : PortInfo, portLe a b = true ∨ portLe b a = true := by
  intro a b
  simp only [portLe, decide_eq_true_eq]
  omega

theorem portLe_trans : ∀ a b c : PortInfo,
    portLe a b = true → portLe b c = true → portLe a c = true := by
  intro a b c
  simp only [portLe, decide_eq_true_eq]
  omega

theorem countP_congr_mem : ∀ (l : List α) (p q : α → Bool),
    (∀ x ∈ l, p x = q x) → l.countP p = l.countP q := by
  intro l p q
  induction l with
  | nil => intro _; rfl
  | cons a as ih =>
    intro h
    simp only [List.countP_cons]
    rw [ih (fun x hx => h x (List.mem_cons_of_mem a hx)), h a (List.mem_cons_self a as)]

theorem countP_eq_one_of_nodup_mem [DecidableEq α] :
    ∀ (l : List α) (a : α), l.Nodup → a ∈ l →
      l.countP (fun x => decide (x = a)) = 1 := by
  intro l
  induction l with
  | nil => intro a _ hm; simp at hm
  | cons b bs ih =>
    intro a hn hm
    rw [List.nodup_cons] at hn
    simp only [List.countP_cons]
    rcases List.mem_cons.mp hm with h | h
    · subst h
      have h0 : bs.countP (fun x => decide (x = a)) = 0 := by
        rw [List.countP_eq_zero]
        intro x hx
        simp only [decide_eq_true_eq]
        intro he
        exact hn.1 (he ▸ hx)
      rw [h0]
      simp
    · have hba : ¬(b = a) := fun he => hn.1 (he ▸ h)
      rw [ih a hn.2 h]
      simp [hba]

/-- A key witnessed by a listening socket of the tail is witnessed by
the tail when the head socket is not a listening socket with an
address. -/
theorem exListen_shift {c0 : Conn} {rest : List Conn} {k : String}
    (hno : ∀ l, ¬(c0.status = ConnStatus.listen ∧ c0.laddr = some l))
    (h : ∃ c, c ∈ c0 :: rest ∧ ∃ l, c.status = ConnStatus.listen ∧ c.laddr = some l ∧
        k = mkPortKey l.ip l.port) :
    ∃ c, c ∈ rest ∧ ∃ l, c.status = ConnStatus.listen ∧ c.laddr = some l ∧
      k = mkPortKey l.ip l.port := by
  obtain ⟨c, hc, l, h1, h2, h3⟩ := h
  rcases List.mem_cons.mp hc with he | he
  · exact absurd ⟨he ▸ h1, he ▸ h2⟩ (hno l)
  · exact ⟨c, he, l, h1, h2, h3⟩

/-- The key of every listening socket of the table reaches the
listening map. -/
theorem buildListening_mem_keys (env : Env) :
    ∀ (conns : List Conn) (acc : List (String × PortInfo)) (k : String),
      (k ∈ acc.map Prod.fst ∨ ∃ c, c ∈ conns ∧ ∃ l, c.status = ConnStatus.listen ∧
          c.laddr = some l ∧ k = mkPortKey l.ip l.port) →
      k ∈ (buildListening env conns acc).map Prod.fst := by
  intro conns
  induction conns with
  | nil =>
    intro acc k h
    rcases h with h | ⟨c, hc, _⟩
    · simpa [buildListening] using h
    · simp at hc
  | cons c0 rest ih =>
    intro acc k h
    unfold buildListening
    cases hst : c0.status with
    | listen =>
      cases hla : c0.laddr with
      | some l0 =>
        dsimp only
        by_cases hany : (acc.any fun kv => decide (kv.1 = mkPortKey l0.ip l0.port)) = true
        · rw [if_pos hany]
          apply ih acc k
          rcases h with hk | ⟨c, hc, l, h1, h2, h3⟩
          · exact Or.inl hk
          · rcases List.mem_cons.mp hc with he | he
            · left
              subst he
              rw [hla] at h2
              obtain rfl : l0 = l := Option.some.inj h2
              obtain ⟨kv, hkv, hkveq⟩ := List.any_eq_true.mp hany
              exact List.mem_map.mpr ⟨kv, hkv, (of_decide_eq_true hkveq).trans h3.symm⟩
            · exact Or.inr ⟨c, he, l, h1, h2, h3⟩
        · rw [if_neg hany]
          apply ih (acc ++ [(mkPortKey l0.ip l0.port, portRecordOf env c0 l0)]) k
          rcases h with hk | ⟨c, hc, l, h1, h2, h3⟩
          · left
            rw [List.map_append]
            exact List.mem_append_left _ hk
          · rcases List.mem_cons.mp hc with he | he
            · left
              subst he
              rw [hla] at h2
              obtain rfl : l0 = l := Option.some.inj h2
              rw [List.map_append]
              refine List.mem_append_right _ ?_
              simp [h3]
            · exact Or.inr ⟨c, he, l, h1, h2, h3⟩
      | none =>
        dsimp only
        exact ih acc k (h.imp_right (exListen_shift (fun l hl => by simp [hst, hla] at hl)))
    | established =>
      cases hla : c0.laddr <;> dsimp only <;>
        exact ih acc k (h.imp_right (exListen_shift (fun l hl => by simp [hst, hla] at hl)))
    | other =>
      cases hla : c0.laddr <;> dsimp only <;>
        exact ih acc k (h.imp_right (exListen_shift (fun l hl => by simp [hst, hla] at hl)))

/-- The listening map never repeats a key. -/
theorem buildListening_nodup (env : Env) :
    ∀ (conns : List Conn) (acc : List (String × PortInfo)),
      (acc.map Prod.fst).Nodup → ((buildListening env conns acc).map Prod.fst).Nodup := by
  intro conns
  induction conns with
  | nil => intro acc h; simpa [buildListening] using h
  | cons c0 rest ih =>
    intro acc h
    unfold buildListening
    cases hst : c0.status with
    | listen =>
      cases hla : c0.laddr with
      | some l0 =>
        dsimp only
        by_cases hany : (acc.any fun kv => decide (kv.1 = mkPortKey l0.ip l0.port)) = true
        · rw [if_pos hany]
          exact ih acc h
        · rw [if_neg hany]
          apply ih
          simp only [List.map_append, List.map_cons, List.map_nil]
          rw [List.nodup_append]
          refine ⟨h, List.nodup_singleton _, ?_⟩
          intro k hk hk2
          obtain ⟨kv, hkv, hkveq⟩ := List.mem_map.mp hk
          apply hany
          refine List.any_eq_true.mpr ⟨kv, hkv, decide_eq_true ?_⟩
          have hkey : k = mkPortKey l0.ip l0.port := by simpa using hk2
          rw [hkveq, hkey]
      | none =>
        dsimp only
        exact ih acc h
    | established => cases hla : c0.laddr <;> dsimp only <;> exact ih acc h
    | other => cases hla : c0.laddr <;> dsimp only <;> exact ih acc h

/-- Every entry of the listening map stems from a listening socket of
the table, keyed by its address and port. -/
theorem buildListening_prov (env : Env) :
    ∀ (conns : List Conn) (acc : List (String × PortInfo)) (kv : String × PortInfo),
      kv ∈ buildListening env conns acc →
      kv ∈ acc ∨ ∃ c, c ∈ conns ∧ ∃ l, c.status = ConnStatus.listen ∧ c.laddr = some l ∧
        kv = (mkPortKey l.ip l.port, portRecordOf env c l) := by
  intro conns
  induction conns with
  | nil =>
    intro acc kv h
    exact Or.inl (by simpa [buildListening] using h)
  | cons c0 rest ih =>
    intro acc kv h
    revert h
    unfold buildListening
    cases hst : c0.status with
    | listen =>
      cases hla : c0.laddr with
      | some l0 =>
        dsimp only
        intro h
        by_cases hany : (acc.any fun kv2 => decide (kv2.1 = mkPortKey l0.ip l0.port)) = true
        · rw [if_pos hany] at h
          exact (ih acc kv h).imp_right
            (fun ⟨c, hc, hr⟩ => ⟨c, List.mem_cons_of_mem _ hc, hr⟩)
        · rw [if_neg hany] at h
          rcases ih _ kv h with h2 | ⟨c, hc, hr⟩
          · rcases List.mem_append.mp h2 with h3 | h3
            · exact Or.inl h3
            · exact Or.inr ⟨c0, List.mem_cons_self _ _, l0, hst, hla, by simpa using h3⟩
          · exact Or.inr ⟨c, List.mem_cons_of_mem _ hc, hr⟩
      | none =>
        dsimp only
        intro h
        exact (ih acc kv h).imp_right
          (fun ⟨c, hc, hr⟩ => ⟨c, List.mem_cons_of_mem _ hc, hr⟩)
    | established =>
      cases hla : c0.laddr <;> dsimp only <;> intro h <;>
        exact (ih acc kv h).imp_right
          (fun ⟨c, hc, hr⟩ => ⟨c, List.mem_cons_of_mem _ hc, hr⟩)
    | other =>
      cases hla : c0.laddr <;> dsimp only <;> intro h <;>
        exact (ih acc kv h).imp_right
          (fun ⟨c, hc, hr⟩ => ⟨c, List.mem_cons_of_mem _ hc, hr⟩)

/-- With a readable socket table, the port collector body completes
normally. -/
theorem portsBody_res_ok (env : Env) (conns : List Conn)
    (h : getConnections env = .ok conns) : (portsBody env).res = .ok () := by
  unfold portsBody
  rw [h]
  simp only [liftE_ok_bind, emit_bind, emitAll_bind, ite_bind, pure_bind_pres]
  by_cases h1 : buildListening env conns [] ≠ [] <;>
    by_cases h2 : establishedOf conns ≠ [] <;>
    by_cases h3 : hostCounts (establishedOf conns) ≠ [] <;>
    simp [h1, h2, h3, emit_res]

/-- The exact output of the port collector body on a readable socket
table. -/
theorem portsBody_out (env : Env) (conns : List Conn)
    (h : getConnections env = .ok conns) :
    (portsBody env).out =
      (if buildListening env conns [] ≠ [] then
         "\n### Listening Ports" :: "| Port | Protocol | Bind Address | Process | PID |"
           :: "|------|----------|--------------|---------|-----|"
           :: (sortPorts ((buildListening env conns []).map Prod.snd)).map renderPortRow
       else [])
      ++ (if establishedOf conns ≠ [] then
            "\n### Active Connections"
              :: ("**Total established connections**: " ++ Nat.repr (establishedOf conns).length)
              :: (if hostCounts (establishedOf conns) ≠ [] then
                    "\n**Top remote hosts by connection count**:"
                      :: ((insSort hostDesc (hostCounts (establishedOf conns))).take 10).map
                          (fun hc => "- " ++ hc.1 ++ ": " ++ Nat.repr hc.2 ++ " connection"
                            ++ (if 1 < hc.2 then "s" else ""))
                  else [])
          else [])
      ++ ["\n**Summary**: " ++ Nat.repr (buildListening env conns []).length
            ++ " listening ports, " ++ Nat.repr (establishedOf conns).length
            ++ " active connections"] := by
  unfold portsBody
  rw [h]
  simp only [liftE_ok_bind, emit_bind, emitAll_bind, ite_bind, pure_bind_pres]
  by_cases h1 : buildListening env conns [] ≠ [] <;>
    by_cases h2 : establishedOf conns ≠ [] <;>
    by_cases h3 : hostCounts (establishedOf conns) ≠ [] <;>
    simp [h1, h2, h3, emit_out, emit_res]

/-- C6.  For every socket table the collector reads, the listening map
holds exactly one record per distinct (bind address, port) pair present
among the listening sockets, the rendered table is sorted ascending by
port number and each of its rows is emitted, every record stems from a
listening socket, a permission failure while resolving the owning
process renders as Access denied, and the collector completes
normally. -/
theorem ports_dedup_spec (env : Env) (conns : List Conn)
    (hconn : getConnections env = .ok conns) :
    (∀ c ∈ conns, ∀ l, c.status = ConnStatus.listen → c.laddr = some l →
        (sortPorts ((buildListening env conns []).map Prod.snd)).countP
          (fun r => decide (r.ip = l.ip ∧ r.port = l.port)) = 1)
    ∧ (sortPorts ((buildListening env conns []).map Prod.snd)).Pairwise
        (fun a b => portLe a b = true)
    ∧ (∀ kv ∈ buildListening env conns [], ∃ c, c ∈ conns ∧ ∃ l,
        c.status = ConnStatus.listen ∧ c.laddr = some l ∧
        kv = (mkPortKey l.ip l.port, portRecordOf env c l))
    ∧ (∀ (c : Conn) (p : Nat) (l : ConnAddr), c.pid = some p → p ≠ 0 →
        env.pidInfo p = PidLookup.denied →
        (portRecordOf env c l).process = "Access denied")
    ∧ (buildListening env conns [] ≠ [] →
        ∀ r ∈ sortPorts ((buildListening env conns []).map Prod.snd),
          renderPortRow r ∈ (get_network_ports env).out)
    ∧ (get_network_ports env).res = .ok () := by
  refine ⟨?_, ?_, ?_, ?_, ?_, ?_⟩
  · intro c hc l hst hla
    have hshape : ∀ kv ∈ buildListening env conns [],
        kv.1 = mkPortKey kv.2.ip kv.2.port := by
      intro kv hkv
      rcases buildListening_prov env conns [] kv hkv with h | ⟨c2, _, l2, _, _, hkveq⟩
      · simp at h
      · rw [hkveq]
        rfl
    have hperm : (sortPorts ((buildListening env conns []).map Prod.snd)).Perm
        ((buildListening env conns []).map Prod.snd) := insSort_perm portLe _
    rw [hperm.countP_eq]
    rw [List.countP_map]
    have hc2 : (buildListening env conns []).countP
          ((fun r => decide (r.ip = l.ip ∧ r.port = l.port)) ∘ Prod.snd)
        = (buildListening env conns []).countP
          (fun kv => decide (kv.1 = mkPortKey l.ip l.port)) := by
      apply countP_congr_mem
      intro kv hkv
      show decide (kv.2.ip = l.ip ∧ kv.2.port = l.port)
        = decide (kv.1 = mkPortKey l.ip l.port)
      rw [decide_eq_decide]
      constructor
      · intro ⟨hip, hport⟩
        rw [hshape kv hkv, hip, hport]
      · intro hk
        rw [hshape kv hkv] at hk
        exact mkPortKey_inj hk
    rw [hc2]
    show (buildListening env conns []).countP
      ((fun k2 => decide (k2 = mkPortKey l.ip l.port)) ∘ Prod.fst) = 1
    rw [← List.countP_map]
    exact countP_eq_one_of_nodup_mem _ _
      (buildListening_nodup env conns [] (by simp))
      (buildListening_mem_keys env conns [] _ (Or.inr ⟨c, hc, l, hst, hla, rfl⟩))
  · exact insSort_pairwise portLe portLe_trans portLe_total _
  · intro kv hkv
    rcases buildListening_prov env conns [] kv hkv with h | h
    · simp at h
    · exact h
  · intro c p l h1 h2 h3
    show (resolvePortProc env c).1 = "Access denied"
    unfold resolvePortProc
    rw [h1]
    dsimp only
    rw [if_pos h2, h3]
  · intro hne r hr
    unfold get_network_ports
    rw [emit_bind]
    dsimp only
    rw [pytry_of_ok _ (portsBody_res_ok env conns hconn)]
    rw [portsBody_out env conns hconn]
    rw [if_pos hne]
    refine List.mem_cons_of_mem _ (List.mem_append_left _ (List.mem_append_left _ ?_))
    exact List.mem_cons_of_mem _ (List.mem_cons_of_mem _ (List.mem_cons_of_mem _
      (List.mem_map.mpr ⟨r, hr, rfl⟩)))
  · unfold get_network_ports
    rw [emit_bind]
    dsimp only
    rw [pytry_of_ok _ (portsBody_res_ok env conns hconn)]
    exact portsBody_res_ok env conns hconn

/-- Witness for C6 at the duplicated-pair socket table: the pair listed
twice yields exactly one record, and the collector completes. -/
theorem ports_dedup_spec_witness :
    (sortPorts ((buildListening portsDupEnv connsDup []).map Prod.snd)).countP
      (fun r => decide (r.ip = "0.0.0.0" ∧ r.port = 22)) = 1
    ∧ (get_network_ports portsDupEnv).res = .ok () := by
  obtain ⟨h1, _, _, _, _, h6⟩ := ports_dedup_spec portsDupEnv connsDup rfl
  refine ⟨?_, h6⟩
  exact h1 ⟨ConnStatus.listen, some ⟨"0.0.0.0", 22⟩, none, some 900, 1⟩
    (List.mem_cons_self _ _) ⟨"0.0.0.0", 22⟩ rfl rfl

theorem exists_ok_of_res {x : PRes Unit} (h : x.res = .ok ()) :
    ∃ lines, x = ⟨lines, .ok ()⟩ := by
  refine ⟨x.out, ?_⟩
  obtain ⟨o, r⟩ := x
  dsimp only at h ⊢
  rw [h]

theorem pytry_res_ok (x : PRes Unit) (handler : PyExc → List String) :
    (pytry x handler).res = .ok () := by
  unfold pytry
  cases hx : x.res with
  | ok a => dsimp only; rw [hx]
  | error e => rfl

/-- With no permission failure on external commands, the command helper
always produces a text. -/
theorem safe_subprocess_ok (env : Env)
    (hcmd : ∀ c t, env.cmd c t ≠ SubprocessOutcome.permissionError)
    (c : List String) (t : Nat) : ∃ s, safe_subprocess env c t = .ok s := by
  unfold safe_subprocess
  cases hc : env.cmd c t with
  | success out => exact ⟨out, rfl⟩
  | calledProcessError => exact ⟨"", rfl⟩
  | timeoutExpired => exact ⟨"", rfl⟩
  | fileNotFoundError => exact ⟨"", rfl⟩
  | permissionError => exact absurd hc (hcmd c t)

theorem identity_res_ok (env : Env)
    (hcmd : ∀ c t, env.cmd c t ≠ SubprocessOutcome.permissionError) :
    (get_system_identity env).res = .ok () := by
  unfold get_system_identity
  obtain ⟨s, hs⟩ := safe_subprocess_ok env hcmd ["system_profiler", "SPHardwareDataType"] 5
  by_cases hd : env.platformSystem = "Darwin" <;>
    simp [emit_bind, ite_bind, pure_bind_pres, hd, hs, liftE_ok_bind, emitAll_res, emit_res]

theorem hardware_res_ok (env : Env) (hb : Benign env) :
    (get_hardware_info env).res = .ok () := by
  obtain ⟨cc, hcc⟩ := hb.cpuCountPhysicalOk
  obtain ⟨cl, hcl⟩ := hb.cpuCountLogicalOk
  obtain ⟨cf, hcf⟩ := hb.cpuFreqOk
  obtain ⟨cp, hcp⟩ := hb.cpuPercentOk
  obtain ⟨vm, hvm⟩ := hb.virtualMemoryOk
  obtain ⟨sw, hsw⟩ := hb.swapMemoryOk
  obtain ⟨bt, hbt⟩ := hb.bootTimeOk
  unfold get_hardware_info
  rw [hcc, hcl, hcf, hcp, hvm, hsw, hbt]
  simp only [liftE_ok_bind, emit_bind, emitAll_bind, ite_bind, pure_bind_pres]
  cases cf <;> by_cases hswt : 0 < sw.total <;>
    simp [hswt, emit_bind, emitAll_bind, ite_bind, pure_bind_pres, emit_res, emitAll_res]

theorem display_res_ok (env : Env) : (get_display_info env).res = .ok () := by
  unfold get_display_info
  rw [emit_bind]
  exact pytry_res_ok _ _

theorem network_res_ok (env : Env) (hb : Benign env) :
    (get_network_info env).res = .ok () := by
  obtain ⟨ifs, hA⟩ := hb.netIfAddrsOk
  obtain ⟨sts, hS⟩ := hb.netIfStatsOk
  exact (network_out env ifs sts hA hS).2

theorem partsLoop_res_ok (env : Env)
    (hnz : ∀ mp u, env.diskUsage mp = .ok u → u.total ≠ 0) :
    ∀ parts : List PartitionRec, (partsLoop env parts).res = .ok () := by
  intro parts
  induction parts with
  | nil => rfl
  | cons p rest ih =>
    unfold partsLoop
    cases hu : env.diskUsage p.mountpoint with
    | permissionError => exact ih
    | osError => exact ih
    | ok u =>
      dsimp only
      have hne := hnz p.mountpoint u hu
      have hq : pyDivInt u.used u.total = .ok (intDivF u.used u.total) := by
        unfold pyDivInt
        rw [if_neg hne]
      have hdo : (do
            let q ← pyDivInt u.used u.total
            pure (q.mul (PyFloat.ofNat 100)) : Except PyExc PyFloat)
          = .ok ((intDivF u.used u.total).mul (PyFloat.ofNat 100)) := by
        rw [hq]
        rfl
      rw [hdo]
      simp only [liftE_ok_bind]
      split
      · rw [emitAll_bind]
        exact ih
      · split
        · exact ih
        · rw [emitAll_bind]
          exact ih

theorem storage_res_ok (env : Env) (hb : Benign env) :
    (get_storage_info env).res = .ok () := by
  obtain ⟨parts, hp⟩ := hb.diskPartitionsOk
  unfold get_storage_info
  rw [hp]
  simp only [emit_bind, liftE_ok_bind]
  exact partsLoop_res_ok env hb.diskTotalsNz parts

theorem connectivity_res_ok (env : Env) : (get_connectivity_devices env).res = .ok () := by
  unfold get_connectivity_devices
  simp only [emit_bind, emitAll_bind, ite_bind, pure_bind_pres]
  by_cases h1 : 1 < (get_usb_devices env).length <;>
    by_cases h2 : 1 < (get_bluetooth_devices env).length <;>
    simp [h1, h2, emit_res, emitAll_res]

theorem processes_res_ok (env : Env) : (get_running_processes env).res = .ok () := by
  unfold get_running_processes
  rw [emit_bind]
  exact pytry_res_ok _ _

theorem ports_res_ok (env : Env) : (get_network_ports env).res = .ok () := by
  unfold get_network_ports
  rw [emit_bind]
  exact pytry_res_ok _ _

theorem user_res_ok (env : Env) (hb : Benign env) :
    (get_user_session_info env).res = .ok () := by
  obtain ⟨u, hu⟩ := hb.getuserOk
  unfold get_user_session_info
  rw [hu]
  simp only [emit_bind, liftE_ok_bind, ite_bind, pure_bind_pres, emitAll_bind]
  by_cases hf : userFullName env u ≠ "" <;> simp [hf, emit_res, emitAll_res]

theorem time_locale_res_ok (env : Env) : (get_time_locale_info env).res = .ok () := rfl

/-- The base environment satisfies the benign-probe condition. -/
theorem baseEnv_benign : Benign baseEnv where
  cmdOk := fun c t h => SubprocessOutcome.noConfusion h
  cpuCountPhysicalOk := ⟨_, rfl⟩
  cpuCountLogicalOk := ⟨_, rfl⟩
  cpuFreqOk := ⟨_, rfl⟩
  cpuPercentOk := ⟨_, rfl⟩
  virtualMemoryOk := ⟨_, rfl⟩
  swapMemoryOk := ⟨_, rfl⟩
  bootTimeOk := ⟨_, rfl⟩
  netIfAddrsOk := ⟨_, rfl⟩
  netIfStatsOk := ⟨_, rfl⟩
  diskPartitionsOk := ⟨_, rfl⟩
  diskTotalsNz := fun mp u h => by
    have h2 : DiskUsageOutcome.ok (⟨107374182400, 80530636800, 26843545600⟩ : DiskUsage)
        = DiskUsageOutcome.ok u := h
    rw [← DiskUsageOutcome.ok.inj h2]
    decide
  getuserOk := ⟨_, rfl⟩

/-- C2 counterexample: on a Darwin machine whose hardware profiler
exists but raises a permission error, the identity collector raises to
its caller instead of returning lines. -/
theorem collector_raises_counterexample :
    (runCollector CollectorId.identity badEnv).res
      = .error ⟨ExcKind.permissionError, "permission denied"⟩ := rfl

/-- C2 (amended).  Under a benign environment, in which no external
command raises a permission error and the unguarded library probes
succeed with nonzero partition totals, every collector returns a list
of text lines and completes normally; outside it a collector can raise
(the permission-error counterexample above). -/
theorem collectors_total (env : Env) (hb : Benign env) :
    ∀ id : CollectorId, ∃ lines, runCollector id env = ⟨lines, Except.ok ()⟩ := by
  intro id
  cases id with
  | identity => exact exists_ok_of_res (identity_res_ok env hb.cmdOk)
  | hardware => exact exists_ok_of_res (hardware_res_ok env hb)
  | display => exact exists_ok_of_res (display_res_ok env)
  | network => exact exists_ok_of_res (network_res_ok env hb)
  | storage => exact exists_ok_of_res (storage_res_ok env hb)
  | connectivity => exact exists_ok_of_res (connectivity_res_ok env)
  | processes => exact exists_ok_of_res (processes_res_ok env)
  | ports => exact exists_ok_of_res (ports_res_ok env)
  | userSession => exact exists_ok_of_res (user_res_ok env hb)
  | timeLocale => exact exists_ok_of_res (time_locale_res_ok env)

/-- Witness for C2 at the benign base environment. -/
theorem collectors_total_witness :
    ∃ lines, runCollector CollectorId.identity baseEnv = ⟨lines, Except.ok ()⟩ :=
  collectors_total baseEnv baseEnv_benign CollectorId.identity

theorem seq_of_ok {x y : PRes Unit} (hx : x.res = .ok ()) :
    (x >>= fun _ => y) = ⟨x.out ++ y.out, y.res⟩ := by
  show PRes.bindP x (fun _ => y) = _
  unfold PRes.bindP
  rw [hx]

/-- C1 counterexample: when the identity collector raises, the report
drops every later section (here the storage header), so it is not the
concatenation of the individual collector outputs. -/
theorem full_report_counterexample :
    ("\n## 💾 Storage") ∈ (get_storage_info badEnv).out
    ∧ ("\n## 💾 Storage") ∉ fullReportLines badEnv
    ∧ fullReportLines badEnv
        ≠ reportHeader badEnv ++ collectorOutputs badEnv ++ reportFooter := by
  decide

/-- C1 (amended).  The report body never reaches the display collector
or any collector after it: its display step calls the shadowed tool
name and raises a type error inside the single try block.  Under a
benign environment the full report is therefore exactly the header,
the identity and hardware sections, the catch-all error line rendering
that type error, and the footer; under other environments an even
earlier raise truncates the report sooner (the counterexample above). -/
theorem full_report_concat (env : Env) (hb : Benign env) :
    fullReportLines env
      = reportHeader env
        ++ ((get_system_identity env).out ++ (get_hardware_info env).out
            ++ ["\n⚠️ **Error collecting system info**: " ++ displayToolErr.msg])
        ++ reportFooter := by
  have hbody : fullReportBody env
      = ⟨(get_system_identity env).out ++ (get_hardware_info env).out,
         .error displayToolErr⟩ := by
    unfold fullReportBody
    simp [seq_of_ok (identity_res_ok env hb.cmdOk),
      seq_of_ok (hardware_res_ok env hb), liftE_error_bind]
  unfold fullReportLines
  rw [hbody, pytry_of_error _ rfl]

/-- Witness for C1 at the benign base environment. -/
theorem full_report_concat_witness :
    fullReportLines baseEnv
      = reportHeader baseEnv
        ++ ((get_system_identity baseEnv).out ++ (get_hardware_info baseEnv).out
            ++ ["\n⚠️ **Error collecting system info**: " ++ displayToolErr.msg])
        ++ reportFooter :=
  full_report_concat baseEnv baseEnv_benign

/-- Witness for C5 at the two-idle-process environment: the table holds
the systemd row (allow-list override) and no row for the other process. -/
theorem process_table_spec_witness :
    procTwoEnv.processIter = .ok
      [.item ⟨1, "systemd", ⟨0, 1, by omega⟩, ⟨0, 1, by omega⟩, none, []⟩,
       .item ⟨2, "python3", ⟨0, 1, by omega⟩, ⟨0, 1, by omega⟩, none, []⟩]
    ∧ (get_running_processes procTwoEnv).out
      = ["## ⚙️ Running Processes", "\n### Top Processes (by CPU/Memory usage)",
         "| PID | Name | CPU% | Memory% | Path |", "|-----|------|------|---------|------|",
         "| 1 | systemd | 0.0% | 0.0% | N/A |",
         "\n**Summary**: 2 total processes, 0 active"] :=
  ⟨rfl, by rw [(process_table_spec procTwoEnv _ rfl).1]; rfl⟩

end SysInfo
